import Mathlib

set_option autoImplicit false

/-!
Verification development for the BACKEND AI-model gateway.

The Python sources are shallowly embedded: Python dicts become association
lists (`List (String × _)`, preserving insertion order as CPython does),
Python numbers become `Int`/`Rat`, fallible code returns `Except`, and the
MCP server's persistence / notification side effects are threaded through an
explicit state record.
-/

/-- A Python value, as used for JSON-ish data (tool arguments, configuration
documents, tool results).  `vInt`/`vNum` mirror Python's distinct `int` and
`float`; `vDict` keeps insertion order as CPython dicts do. -/
inductive PVal where
  | vNone
  | vBool (b : Bool)
  | vInt (n : Int)
  | vNum (q : Rat)
  | vStr (s : String)
  | vList (xs : List PVal)
  | vDict (xs : List (String × PVal))

open PVal

/-- Python truthiness (`bool(v)`). -/
def pyTruthy : PVal → Bool
  | .vNone => false
  | .vBool b => b
  | .vInt n => n != 0
  | .vNum q => q != 0
  | .vStr s => s != ""
  | .vList xs => !xs.isEmpty
  | .vDict xs => !xs.isEmpty

/-- Numeric view of a Python value.  `bool` is a subclass of `int` in Python,
so `True` compares equal to `1` and participates in numeric comparisons. -/
def PVal.toRat? : PVal → Option Rat
  | .vBool b => some (if b then 1 else 0)
  | .vInt n => some (n : Rat)
  | .vNum q => some q
  | _ => none

mutual

/-- Python `==` on values.  Numbers compare across `int`/`float`/`bool`;
dict comparison here is order-sensitive pairwise comparison (CPython's dict
equality ignores insertion order, but the embedded code only ever compares
scalar values, where the two notions coincide). -/
def pyEq : PVal → PVal → Bool
  | .vStr s, .vStr t => s == t
  | .vNone, .vNone => true
  | .vList xs, .vList ys => pyEqList xs ys
  | .vDict xs, .vDict ys => pyEqDict xs ys
  | a, b =>
    match a.toRat?, b.toRat? with
    | some x, some y => x == y
    | _, _ => false

def pyEqList : List PVal → List PVal → Bool
  | [], [] => true
  | x :: xs, y :: ys => pyEq x y && pyEqList xs ys
  | _, _ => false

def pyEqDict : List (String × PVal) → List (String × PVal) → Bool
  | [], [] => true
  | (k, v) :: xs, (k', v') :: ys => k == k' && pyEq v v' && pyEqDict xs ys
  | _, _ => false

end

/-- `d.get(k)` on an association list (first matching key, like a dict). -/
def pyGet (d : List (String × PVal)) (k : String) : Option PVal :=
  (d.find? (fun kv => kv.1 == k)).map (·.2)

/-- `d.get(k, default)`. -/
def pyGetD (d : List (String × PVal)) (k : String) (dflt : PVal) : PVal :=
  (pyGet d k).getD dflt

/-- `k in d`. -/
def pyHasKey (d : List (String × PVal)) (k : String) : Bool :=
  d.any (fun kv => kv.1 == k)

/-- `d[k] = v` on a dict: update in place if the key exists (keeping its
position), otherwise append — CPython insertion-order semantics. -/
def pySet (d : List (String × PVal)) (k : String) (v : PVal) : List (String × PVal) :=
  if d.any (fun kv => kv.1 == k) then
    d.map (fun kv => if kv.1 == k then (kv.1, v) else kv)
  else
    d ++ [(k, v)]

/-- `v in xs` for a Python list. -/
def pyMem (x : PVal) (xs : List PVal) : Bool :=
  xs.any (fun y => pyEq x y)

/-! ## `src/common/stream_utils.py` -/

/-- Modelled from the spec: `CompletedToolCall` is imported from
`common.models` but absent from the source snapshot.  Per §3 of the spec it
carries `id`, a non-empty `name` ("unknown_function" substituted when the
provider omitted it) and an `arguments` string. -/
structure CompletedToolCall where
  id : String
  name : String
  arguments : String
  deriving Repr, DecidableEq

/-- The function part of a streamed tool-call fragment (`tc.function`):
optional partial name and optional partial arguments. -/
structure FragFunction where
  name : Option String
  arguments : Option String
  deriving Repr, DecidableEq

/-- A streamed tool-call fragment (`tc`).  Fields read via `getattr(·, ·,
None)` in the source are optional here; `is_final` is read via
`getattr(tc, "is_final", False)`. -/
structure Frag where
  id : Option String := none
  index : Option Int := none
  function : Option FragFunction := none
  finish_reason : Option String := none
  is_final : Bool := false
  deriving Repr, DecidableEq

/-- A scratch-map key: Python mixes string ids and integer indices as dict
keys. -/
inductive MergeKey where
  | str (s : String)
  | idx (n : Int)
  deriving Repr, DecidableEq

/-- Rendering of a key inside the synthesized entry id (`f"auto_{key}"`). -/
def MergeKey.render : MergeKey → String
  | .str s => s
  | .idx n => toString n

/-- A scratch-buffer entry (`{"id": …, "name": …, "arguments": …}`). -/
structure ScratchEntry where
  id : String
  name : String
  arguments : String
  deriving Repr, DecidableEq

/-- The per-turn scratch buffer.  A CPython dict preserves insertion order;
`list(scratch.keys())[0]` is the earliest-inserted surviving key, so the
buffer is an ordered association list. -/
abbrev Scratch := List (MergeKey × ScratchEntry)

/-- `scratch.setdefault(key, default)`: return the existing entry or append
the default. -/
def scratchSetdefault (s : Scratch) (k : MergeKey) (e : ScratchEntry) :
    ScratchEntry × Scratch :=
  match s.find? (fun kv => kv.1 == k) with
  | some kv => (kv.2, s)
  | none => (e, s ++ [(k, e)])

/-- Replace the entry stored at `k`. -/
def scratchStore (s : Scratch) (k : MergeKey) (e : ScratchEntry) : Scratch :=
  s.map (fun kv => if kv.1 == k then (kv.1, e) else kv)

/-- `scratch.pop(key, None)`. -/
def scratchPop (s : Scratch) (k : MergeKey) : Scratch :=
  s.filter (fun kv => kv.1 != k)

/-- `_is_call_final(tc, provider)` from `stream_utils.py`. -/
def isCallFinal (tc : Frag) (provider : String) : Bool :=
  if provider == "anthropic" then
    tc.is_final
  else if provider == "gemini" then
    true
  else
    tc.finish_reason.isSome

/-- The key chosen for a fragment (lines 79–95 of `stream_utils.py`):
`key = getattr(tc, "id", None) or getattr(tc, "index", None)`.  Python `or`
returns its first truthy operand and otherwise its *last* operand: a
non-empty `id` wins; failing that, `key` is the index value whenever the
attribute is present — including the falsy `0`, which is not `None` and so
does not trigger the `if key is None` fallback — and `None` only when the
index too is absent.  On `None`, OpenAI-class providers fall back to the
first scratch key, or to the synthesized `"tool_call_0"` when the scratch
is empty; other providers `continue`, skipping the fragment (`none`). -/
def mergeKeyFor (tc : Frag) (scratch : Scratch) (provider : String) :
    Option MergeKey :=
  let key : Option MergeKey :=
    match tc.id with
    | some s => if s != "" then some (.str s) else tc.index.map .idx
    | none => tc.index.map .idx
  match key with
  | some k => some k
  | none =>
    if provider == "openai" || provider == "openrouter" then
      match scratch with
      | kv :: _ => some kv.1
      | [] => some (.str "tool_call_0")
    else
      none

/-- The body of the `for tc in delta_tool_calls` loop of
`merge_tool_chunks`, for one fragment. -/
def mergeStep (provider : String) (acc : List CompletedToolCall × Scratch)
    (tc : Frag) : List CompletedToolCall × Scratch :=
  let (completed, scratch) := acc
  match mergeKeyFor tc scratch provider with
  | none => (completed, scratch)
  | some key =>
    let fresh : ScratchEntry :=
      { id := match tc.id with
              | some s => if s != "" then s else "auto_" ++ key.render
              | none => "auto_" ++ key.render
        name := ""
        arguments := "" }
    let (entry, scratch) := scratchSetdefault scratch key fresh
    let entry :=
      match tc.function with
      | none => entry
      | some f =>
        let entry :=
          match f.name with
          | some n => if n != "" then { entry with name := n } else entry
          | none => entry
        match f.arguments with
        | some a => if a != "" then { entry with arguments := entry.arguments ++ a } else entry
        | none => entry
    let scratch := scratchStore scratch key entry
    if isCallFinal tc provider then
      let finalName := if entry.name != "" then entry.name else "unknown_function"
      (completed ++ [⟨entry.id, finalName, entry.arguments⟩], scratchPop scratch key)
    else
      (completed, scratch)

/-- `merge_tool_chunks(delta_tool_calls, scratch, provider=…)`: fold the loop
body over the chunk's fragment list, returning the newly completed calls and
the updated scratch buffer. -/
def mergeToolChunks (deltaToolCalls : List Frag) (scratch : Scratch)
    (provider : String) : List CompletedToolCall × Scratch :=
  deltaToolCalls.foldl (mergeStep provider) ([], scratch)

/-- `finalize_remaining_calls(scratch)`. -/
def finalizeRemainingCalls (scratch : Scratch) :
    List CompletedToolCall × Scratch :=
  (scratch.map (fun kv =>
    let finalName := if kv.2.name != "" then kv.2.name else "unknown_function"
    ⟨kv.2.id, finalName, kv.2.arguments⟩), [])

/-- A stream of chunks fed through `merge_tool_chunks` one chunk at a time
with a shared scratch buffer, collecting every completed call. -/
def mergeStream (chunks : List (List Frag)) (scratch : Scratch)
    (provider : String) : List CompletedToolCall × Scratch :=
  chunks.foldl
    (fun acc chunk =>
      ((acc.1 ++ (mergeToolChunks chunk acc.2 provider).1,
        (mergeToolChunks chunk acc.2 provider).2)))
    ([], scratch)

/-! ## `src/mcp/parameter_schemas.py` -/

/-- `ParameterType` enum. -/
inductive ParameterType where
  | float
  | integer
  | string
  | boolean
  | array
  | object
  deriving Repr, DecidableEq

/-- The `.value` string of a `ParameterType` member. -/
def ParameterType.value : ParameterType → String
  | .float => "float"
  | .integer => "integer"
  | .string => "string"
  | .boolean => "boolean"
  | .array => "array"
  | .object => "object"

/-- `ParameterConstraint` dataclass.  Numeric bounds are `Rat` (Python
ints/floats); `default` uses `PVal.vNone` for Python `None`. -/
structure ParameterConstraint where
  name : String
  param_type : ParameterType
  min_value : Option Rat := none
  max_value : Option Rat := none
  default : PVal := .vNone
  required : Bool := false
  enum_values : Option (List String) := none
  max_items : Option Int := none
  description : String := ""

/-- A parameter schema: dict from parameter name to constraint, in source
order. -/
abbrev ParamSchema := List (String × ParameterConstraint)

/-- `ModelParameterSchemas.OPENAI_STANDARD`. -/
def OPENAI_STANDARD : ParamSchema :=
  [("temperature",
    { name := "temperature", param_type := .float, min_value := some 0,
      max_value := some 2, default := .vNum 1,
      description := "Controls randomness in responses. 0=deterministic, 2=very creative" }),
   ("max_tokens",
    { name := "max_tokens", param_type := .integer, min_value := some 1,
      max_value := some 4096, default := .vNone,
      description := "Maximum number of tokens to generate" }),
   ("top_p",
    { name := "top_p", param_type := .float, min_value := some 0,
      max_value := some 1, default := .vNum 1,
      description := "Nucleus sampling: only consider tokens with top p probability mass" }),
   ("frequency_penalty",
    { name := "frequency_penalty", param_type := .float, min_value := some (-2),
      max_value := some 2, default := .vNum 0,
      description := "Penalty for token frequency. Positive values reduce repetition" }),
   ("presence_penalty",
    { name := "presence_penalty", param_type := .float, min_value := some (-2),
      max_value := some 2, default := .vNum 0,
      description := "Penalty for token presence. Positive values encourage new topics" }),
   ("seed",
    { name := "seed", param_type := .integer, default := .vNone,
      description := "Random seed for reproducible outputs" }),
   ("response_format",
    { name := "response_format", param_type := .string,
      enum_values := some ["text", "json_object", "json_schema"],
      default := .vStr "text",
      description := "Format of the response" }),
   ("stop",
    { name := "stop", param_type := .array, max_items := some 4,
      default := .vNone,
      description := "Sequences that will stop generation" })]

/-- `ModelParameterSchemas.OPENAI_REASONING`. -/
def OPENAI_REASONING : ParamSchema :=
  [("max_completion_tokens",
    { name := "max_completion_tokens", param_type := .integer,
      min_value := some 1, max_value := some 32768, default := .vNone,
      description := "Maximum tokens in completion (reasoning models use this instead of max_tokens)" })]

/-- `ModelParameterSchemas.ANTHROPIC_CLAUDE`. -/
def ANTHROPIC_CLAUDE : ParamSchema :=
  [("temperature",
    { name := "temperature", param_type := .float, min_value := some 0,
      max_value := some 1, default := .vNum 1,
      description := "Controls randomness in responses. 0=deterministic, 1=creative" }),
   ("max_tokens",
    { name := "max_tokens", param_type := .integer, min_value := some 1,
      max_value := some 4096, default := .vInt 4096, required := true,
      description := "Maximum number of tokens to generate (required for Claude)" }),
   ("top_p",
    { name := "top_p", param_type := .float, min_value := some 0,
      max_value := some 1, default := .vNone,
      description := "Nucleus sampling parameter" }),
   ("top_k",
    { name := "top_k", param_type := .integer, min_value := some 1,
      max_value := some 200, default := .vNone,
      description := "Top-k sampling parameter" }),
   ("stop_sequences",
    { name := "stop_sequences", param_type := .array, max_items := some 4,
      default := .vNone,
      description := "Sequences that will stop generation" }),
   ("system",
    { name := "system", param_type := .string, default := .vNone,
      description := "System message for the conversation" })]

/-- `ModelParameterSchemas.GOOGLE_GEMINI`. -/
def GOOGLE_GEMINI : ParamSchema :=
  [("temperature",
    { name := "temperature", param_type := .float, min_value := some 0,
      max_value := some 1, default := .vNum 1,
      description := "Controls randomness in responses" }),
   ("max_output_tokens",
    { name := "max_output_tokens", param_type := .integer, min_value := some 1,
      max_value := some 8192, default := .vNone,
      description := "Maximum number of output tokens" }),
   ("top_p",
    { name := "top_p", param_type := .float, min_value := some 0,
      max_value := some 1, default := .vNone,
      description := "Nucleus sampling parameter" }),
   ("top_k",
    { name := "top_k", param_type := .integer, min_value := some 1,
      max_value := some 40, default := .vNone,
      description := "Top-k sampling parameter" }),
   ("candidate_count",
    { name := "candidate_count", param_type := .integer, min_value := some 1,
      max_value := some 8, default := .vInt 1,
      description := "Number of response candidates to generate" }),
   ("stop_sequences",
    { name := "stop_sequences", param_type := .array, default := .vNone,
      description := "Sequences that will stop generation" }),
   ("safety_settings",
    { name := "safety_settings", param_type := .object, default := .vNone,
      description := "Safety filter configuration" }),
   ("response_mime_type",
    { name := "response_mime_type", param_type := .string,
      enum_values := some ["text/plain", "application/json"],
      default := .vStr "text/plain",
      description := "MIME type of the response" })]

/-- `ModelParameterSchemas._get_conservative_schema()`. -/
def conservativeSchema : ParamSchema :=
  [("temperature",
    { name := "temperature", param_type := .float, min_value := some 0,
      max_value := some 1, default := .vNum (mkRat 7 10),
      description := "Controls randomness (conservative range)" }),
   ("max_tokens",
    { name := "max_tokens", param_type := .integer, min_value := some 1,
      max_value := some 2048, default := .vInt 2048,
      description := "Maximum tokens (conservative limit)" })]

/-- `ModelParameterSchemas._get_openrouter_schema(model)`: `re.match` with a
literal pattern is a prefix test. -/
def getOpenrouterSchema (model : String) : ParamSchema :=
  if "anthropic/claude".isPrefixOf model then ANTHROPIC_CLAUDE
  else if "openai/gpt".isPrefixOf model then OPENAI_STANDARD
  else if "google/gemini".isPrefixOf model then GOOGLE_GEMINI
  else conservativeSchema

/-- `ModelParameterSchemas.get_model_schema(provider, model)`. -/
def getModelSchema (provider model : String) : ParamSchema :=
  if provider == "openai" then
    if model == "o1-preview" || model == "o1-mini" then OPENAI_REASONING
    else OPENAI_STANDARD
  else if provider == "anthropic" then ANTHROPIC_CLAUDE
  else if provider == "gemini" then GOOGLE_GEMINI
  else if provider == "openrouter" then getOpenrouterSchema model
  else conservativeSchema

/-- `PopularModels.PHASE_1_MODELS`. -/
def PHASE_1_MODELS : List (String × List String) :=
  [("openai", ["gpt-4o-mini", "gpt-4o", "o1-preview", "o1-mini"]),
   ("anthropic", ["claude-3-5-sonnet-20241022", "claude-3-5-haiku-20241022"]),
   ("gemini", ["gemini-1.5-flash", "gemini-1.5-pro"]),
   ("openrouter",
    ["anthropic/claude-3-sonnet", "openai/gpt-4o", "google/gemini-1.5-pro"])]

/-- `PopularModels.is_supported_model(provider, model)`. -/
def isSupportedModel (provider model : String) : Bool :=
  match (PHASE_1_MODELS.find? (fun kv => kv.1 == provider)).map (·.2) with
  | some models => models.contains model
  | none => false

/-- `PopularModels.get_supported_models(provider)`. -/
def getSupportedModels (provider : String) : List String :=
  ((PHASE_1_MODELS.find? (fun kv => kv.1 == provider)).map (·.2)).getD []

/-- Modelled from the spec: `ModelParameterSchemas.has_schema(provider,
model)` is called by `MCP2025Server.get_available_models` but is absent from
the source snapshot.  It is a read-only boolean probe for whether a parameter
schema is available for the pair; per §3 the mapping table always yields a
schema (falling back to the conservative one), so the probe is total and
side-effect-free. -/
def hasSchema (provider model : String) : Bool :=
  !(getModelSchema provider model).isEmpty

/-! ## Configuration document and persistence
(`common/runtime_config.py`, spec §6 persisted-state layout) -/

/-- `str()` of a Python value, best effort: used only inside log/error
message strings.  Rational rendering approximates CPython float formatting
(exact for integral floats; claims never constrain the remaining cases). -/
def pyStrVal : PVal → String
  | .vNone => "None"
  | .vBool b => if b then "True" else "False"
  | .vInt n => toString n
  | .vNum q => if q.den == 1 then toString q.num ++ ".0" else toString q
  | .vStr s => s
  | .vList _ => "[...]"
  | .vDict _ => "\x7b...\x7d"

/-- `type(v).__name__`. -/
def pyTypeName : PVal → String
  | .vNone => "NoneType"
  | .vBool _ => "bool"
  | .vInt _ => "int"
  | .vNum _ => "float"
  | .vStr _ => "str"
  | .vList _ => "list"
  | .vDict _ => "dict"

/-- `isinstance(v, int)` (Python `bool` is a subclass of `int`). -/
def pyIsInstInt : PVal → Bool
  | .vInt _ => true
  | .vBool _ => true
  | _ => false

/-- `isinstance(v, (int, float))`. -/
def pyIsInstNum : PVal → Bool
  | .vInt _ => true
  | .vBool _ => true
  | .vNum _ => true
  | _ => false

/-- `str(list_of_strings)`: Python repr of a list of strings. -/
def pyStrListStr (xs : List String) : String :=
  "[" ++ String.intercalate ", " (xs.map (fun s => "'" ++ s ++ "'")) ++ "]"

/-- The string behind a value annotated `str` in the source (the embedded
documents only ever store strings in those positions). -/
def PVal.asStr : PVal → String
  | .vStr s => s
  | _ => ""

def PVal.isNone : PVal → Bool
  | .vNone => true
  | _ => false

/-- The persisted configuration document: top-level key `provider` with
`active` and `models` (one parameter dict per provider), and the `runtime`
section.  Spec §6: writes are whole-document replacements. -/
structure ConfigDoc where
  active : String
  models : List (String × List (String × PVal))
  runtime : List (String × PVal)

def defaultSystemPrompt : String :=
  "You are a helpful AI assistant with access to smart home devices. When users ask to control devices, use the available functions to execute their requests."

/-- The default document materialized by
`RuntimeConfigManager._ensure_config_file`. -/
def defaultConfigDoc : ConfigDoc :=
  { active := "openai"
    models :=
      [("openai",
        [("model", .vStr "gpt-4o-mini"), ("temperature", .vNum (mkRat 7 10)),
         ("max_tokens", .vNone), ("system_prompt", .vStr defaultSystemPrompt)]),
       ("anthropic",
        [("model", .vStr "claude-3-5-sonnet-20241022"), ("temperature", .vNum (mkRat 7 10)),
         ("max_tokens", .vInt 4096), ("system_prompt", .vStr defaultSystemPrompt)]),
       ("gemini",
        [("model", .vStr "gemini-1.5-flash"), ("temperature", .vNum (mkRat 7 10)),
         ("max_tokens", .vInt 4096), ("system_prompt", .vStr defaultSystemPrompt)]),
       ("openrouter",
        [("model", .vStr "anthropic/claude-3-sonnet"), ("temperature", .vNum (mkRat 7 10)),
         ("max_tokens", .vInt 4096), ("system_prompt", .vStr defaultSystemPrompt)])]
    runtime := [("strict_mode", .vBool true), ("config_reload_interval", .vInt 5)] }

/-! ## `src/mcp/mcp2025_server.py` — configuration authority -/

/-- A broadcast notification (timestamps, which are wall-clock I/O, are not
modelled). -/
inductive Notif where
  | configurationChanged (provider param : String) (value : PVal)
  | providerSwitched (oldProvider : PVal) (newProvider : String)
  | configurationReset (provider : String) (defaults : List (String × PVal))
  | toolsListChanged (version : Int)

/-- State of `MCP2025Server` relevant to configuration: the persisted
document, the in-memory `config_cache`, a persistence oracle saying whether
`save_config` succeeds, the notification broadcast log, and a trace of the
mutating server operations that were invoked. -/
structure ServerSt where
  persisted : ConfigDoc
  cache : Option ConfigDoc
  saveOk : Bool
  notifications : List Notif
  trace : List String

/-- Modelled from the spec: `get_runtime_config_persistence` /
`save_config` are referenced by `mcp2025_server.py` but absent from the
source snapshot.  Per spec §6 a save is a whole-document replacement that
reports success; on failure the stored document is untouched. -/
def saveConfig (st : ServerSt) (doc : ConfigDoc) : Bool × ServerSt :=
  if st.saveOk then (true, { st with persisted := doc }) else (false, st)

/-- `if self.config_cache is None: self.config_cache =
self.config_persistence.load_config()` (the load reads the persisted
document). -/
def ensureCache (st : ServerSt) : ConfigDoc × ServerSt :=
  match st.cache with
  | some c => (c, st)
  | none => (st.persisted, { st with cache := some st.persisted })

/-- The document `ensureCache` yields: the cache when loaded, else the
persisted document. -/
def cacheDoc (st : ServerSt) : ConfigDoc := st.cache.getD st.persisted

/-- The state after `ensureCache`. -/
def withCache (st : ServerSt) : ServerSt :=
  { st with cache := some (cacheDoc st) }

/-- `MCP2025Server.get_available_providers()`. -/
def getAvailableProviders : List String := PHASE_1_MODELS.map (·.1)

/-- The flattened active-provider record built by
`get_active_provider_config`, as a function of the loaded document. -/
def flatActiveConfig (doc : ConfigDoc) : List (String × PVal) :=
  let m := ((doc.models.find? (fun kv => kv.1 == doc.active)).map (·.2)).getD []
  [("provider", .vStr doc.active),
   ("model", pyGetD m "model" (.vStr "gpt-4o-mini")),
   ("temperature", pyGetD m "temperature" (.vNum (mkRat 7 10))),
   ("max_tokens", pyGetD m "max_tokens" .vNone),
   ("system_prompt",
    pyGetD m "system_prompt" (.vStr "You are a helpful AI assistant."))]

/-- `MCP2025Server.get_active_provider_config()`: flatten the active
provider's record with the source's defaults. -/
def getActiveProviderConfig (st : ServerSt) :
    List (String × PVal) × ServerSt :=
  let (doc, st) := ensureCache st
  (flatActiveConfig doc, st)

/-- One entry of the dict built by
`MCP2025Server.get_parameter_constraints`. -/
structure ConstraintInfo where
  type : String
  description : String
  min_value : Option Rat
  max_value : Option Rat
  enum_values : Option (List String)
  default : PVal
  current_value : PVal
  required : Bool

/-- The constraints dict of `get_parameter_constraints`, as a function of
the flattened active configuration. -/
def constraintsFor (cfg : List (String × PVal)) (provider : String) :
    List (String × ConstraintInfo) :=
  let model := (pyGetD cfg "model" (.vStr "")).asStr
  let schema := getModelSchema provider model
  schema.map (fun kv =>
    (kv.1,
     { type := kv.2.param_type.value
       description := kv.2.description
       min_value := kv.2.min_value
       max_value := kv.2.max_value
       enum_values := kv.2.enum_values
       default := kv.2.default
       current_value := pyGetD cfg kv.1 kv.2.default
       required := kv.2.required }))

/-- `MCP2025Server.get_parameter_constraints(provider)`: schema for
(`provider`, active provider's model) merged with current values from the
flattened active configuration. -/
def getParameterConstraints (st : ServerSt) (provider : String) :
    List (String × ConstraintInfo) × ServerSt :=
  let (cfg, st) := getActiveProviderConfig st
  (constraintsFor cfg provider, st)

/-- `MCP2025Server._validate_parameter_value(value, constraint)`.  Note the
source's type dispatch tests the strings "integer"/"number"/"string": a
constraint whose declared type is "float" matches none of them, so only the
range/enum checks apply to it. -/
def validateParameterValue (value : PVal) (c : ConstraintInfo) :
    Except String PVal :=
  let checked : Except String PVal :=
    if c.type == "integer" && !pyIsInstInt value then
      match value with
      | .vNum q =>
        if q.den == 1 then .ok (.vInt q.num)
        else .error ("Expected integer, got " ++ pyTypeName value)
      | _ => .error ("Expected integer, got " ++ pyTypeName value)
    else if c.type == "number" && !pyIsInstNum value then
      .error ("Expected number, got " ++ pyTypeName value)
    else if c.type == "string" && !(match value with | .vStr _ => true | _ => false) then
      .error ("Expected string, got " ++ pyTypeName value)
    else .ok value
  let ranged : Except String PVal := do
    let v ← checked
    match c.min_value, v.toRat? with
    | some m, some x =>
      if x < m then
        .error ("Value " ++ pyStrVal v ++ " below minimum " ++ toString m)
      else .ok ()
    | _, _ => .ok ()
    match c.max_value, v.toRat? with
    | some m, some x =>
      if x > m then
        .error ("Value " ++ pyStrVal v ++ " above maximum " ++ toString m)
      else .ok ()
    | _, _ => .ok ()
    match c.enum_values with
    | some enums =>
      if !enums.isEmpty && !(enums.any (fun s => pyEq v (.vStr s))) then
        .error ("Value " ++ pyStrVal v ++ " not in allowed values: " ++ pyStrListStr enums)
      else .ok v
    | none => .ok v
  ranged.mapError (fun e => "Parameter validation failed: " ++ e)

/-- Write `models[provider][param] = value` on a document, creating the
provider's dict first when missing (lines 708–711 of the source). -/
def docSetParam (doc : ConfigDoc) (provider param : String) (value : PVal) :
    ConfigDoc :=
  let models :=
    if doc.models.any (fun kv => kv.1 == provider) then doc.models
    else doc.models ++ [(provider, [])]
  { doc with
    models := models.map (fun kv =>
      if kv.1 == provider then (kv.1, pySet kv.2 param value) else kv) }

/-- `MCP2025Server.set_provider_parameter(provider, param_name, value)`.
Errors are the raised `ValueError`/`RuntimeError` messages. -/
def setProviderParameter (st : ServerSt) (provider param : String)
    (value : PVal) : Except String Bool × ServerSt :=
  let st := { st with trace := st.trace ++ ["set_provider_parameter"] }
  if !(getAvailableProviders.contains provider) then
    (.error ("Invalid provider '" ++ provider ++ "'. Available: "
             ++ pyStrListStr getAvailableProviders), st)
  else
    let (constraints, st) := getParameterConstraints st provider
    match (constraints.find? (fun kv => kv.1 == param)).map (·.2) with
    | none =>
      (.error ("Invalid parameter '" ++ param ++ "' for provider '"
               ++ provider ++ "'"), st)
    | some c =>
      match validateParameterValue value c with
      | .error e => (.error e, st)
      | .ok validated =>
        let (doc, st) := ensureCache st
        let doc := docSetParam doc provider param validated
        let st := { st with cache := some doc }
        let (success, st) := saveConfig st doc
        if success then
          (.ok true,
           { st with notifications :=
               st.notifications
                 ++ [.configurationChanged provider param validated] })
        else
          (.error "Configuration update failed", st)

/-- `MCP2025Server.switch_active_provider(provider)`. -/
def switchActiveProvider (st : ServerSt) (provider : String) :
    Except String Bool × ServerSt :=
  let st := { st with trace := st.trace ++ ["switch_active_provider"] }
  if !(getAvailableProviders.contains provider) then
    (.error ("Invalid provider '" ++ provider ++ "'. Available: "
             ++ pyStrListStr getAvailableProviders), st)
  else
    let (cfg, st) := getActiveProviderConfig st
    let currentProvider := pyGetD cfg "provider" (.vStr "unknown")
    let (doc, st) := ensureCache st
    let doc := { doc with active := provider }
    let st := { st with cache := some doc }
    let (success, st) := saveConfig st doc
    if success then
      (.ok true,
       { st with notifications :=
           st.notifications ++ [.providerSwitched currentProvider provider] })
    else
      (.error "Provider switch failed", st)

/-- One element of `get_available_models`' `models` list. -/
structure ModelInfo where
  name : String
  supported : Bool
  schema_available : Bool
  deriving Repr, DecidableEq

/-- `MCP2025Server.get_available_models(provider)` (using the spec-modelled
`hasSchema`, which is total). -/
def getAvailableModels (provider : String) :
    Except String (String × List ModelInfo) :=
  if !(PHASE_1_MODELS.any (fun kv => kv.1 == provider)) then
    .error ("Provider '" ++ provider ++ "' not supported")
  else
    .ok (provider,
      (getSupportedModels provider).map (fun m =>
        ⟨m, isSupportedModel provider m, hasSchema provider m⟩))

/-- `MCP2025Server.reset_to_defaults(provider)`. -/
def resetToDefaults (st : ServerSt) (provider : String) :
    Except String Bool × ServerSt :=
  let st := { st with trace := st.trace ++ ["reset_to_defaults"] }
  if !(getAvailableProviders.contains provider) then
    (.error ("Invalid provider '" ++ provider ++ "'. Available: "
             ++ pyStrListStr getAvailableProviders), st)
  else
    let (constraints, st) := getParameterConstraints st provider
    let defaults : List (String × PVal) :=
      constraints.filterMap (fun kv =>
        if kv.2.default.isNone then none else some (kv.1, kv.2.default))
    let (doc, st) := ensureCache st
    let doc := defaults.foldl
      (fun d kv => docSetParam d provider kv.1 kv.2) doc
    let st := { st with cache := some doc }
    if defaults.length > 0 then
      let (success, st) := saveConfig st doc
      if !success then (.error "Failed to save configuration", st)
      else
        (.ok true,
         { st with notifications :=
             st.notifications ++ [.configurationReset provider defaults] })
    else
      (.error "No parameters were reset", st)

/-! ## `src/mcp/tool_registry.py` -/

/-- `ToolParameterType` enum. -/
inductive ToolParameterType where
  | string
  | integer
  | number
  | boolean
  | array
  | object
  deriving Repr, DecidableEq

/-- `ToolParameter` model.  It is recursive (`items` for arrays,
`properties` for objects), hence an inductive with one constructor. -/
inductive ToolParameter where
  | mk (name : String) (type : ToolParameterType) (description : String)
       (required : Bool) (default : PVal) (enum : Option (List PVal))
       (minimum : Option Rat) (maximum : Option Rat) (pattern : Option String)
       (properties : Option (List (String × ToolParameter)))
       (items : Option ToolParameter)

def ToolParameter.name : ToolParameter → String
  | .mk n _ _ _ _ _ _ _ _ _ _ => n

def ToolParameter.type : ToolParameter → ToolParameterType
  | .mk _ t _ _ _ _ _ _ _ _ _ => t

def ToolParameter.description : ToolParameter → String
  | .mk _ _ d _ _ _ _ _ _ _ _ => d

def ToolParameter.required : ToolParameter → Bool
  | .mk _ _ _ r _ _ _ _ _ _ _ => r

def ToolParameter.default : ToolParameter → PVal
  | .mk _ _ _ _ d _ _ _ _ _ _ => d

def ToolParameter.enum : ToolParameter → Option (List PVal)
  | .mk _ _ _ _ _ e _ _ _ _ _ => e

def ToolParameter.minimum : ToolParameter → Option Rat
  | .mk _ _ _ _ _ _ m _ _ _ _ => m

def ToolParameter.maximum : ToolParameter → Option Rat
  | .mk _ _ _ _ _ _ _ m _ _ _ => m

def ToolParameter.pattern : ToolParameter → Option String
  | .mk _ _ _ _ _ _ _ _ p _ _ => p

def ToolParameter.items : ToolParameter → Option ToolParameter
  | .mk _ _ _ _ _ _ _ _ _ _ i => i

/-- Positional smart constructor mirroring the pydantic model's field
defaults. -/
def mkParam (name : String) (ty : ToolParameterType) (descr : String)
    (required : Bool := false) (default : PVal := .vNone)
    (enum : Option (List PVal) := none)
    (minimum : Option Rat := none) (maximum : Option Rat := none)
    (pattern : Option String := none)
    (properties : Option (List (String × ToolParameter)) := none)
    (items : Option ToolParameter := none) : ToolParameter :=
  .mk name ty descr required default enum minimum maximum pattern properties items

/-- `Tool` model. -/
structure Tool where
  name : String
  description : String
  parameters : List ToolParameter := []
  examples : List String := []
  category : String := "general"
  version : String := "1.0.0"

/-- `ToolExecution` dataclass (`execution_time_ms`, a wall-clock
measurement, is not modelled). -/
structure ToolExecution where
  success : Bool
  result : List (String × PVal) := []
  error : Option String := none

/-- A tool handler's `execute`: arguments in, result dict out, with a raised
exception embedded as `Except.error` carrying `str(e)`. -/
abbrev Handler := List (String × PVal) → Except String (List (String × PVal))

/-- `ToolRegistry` state: `tools` and `handlers` maps. -/
structure Registry where
  tools : List (String × Tool)
  handlers : List (String × Handler)

/-- Python repr of a list of values (for the enum error message). -/
def pyReprList (xs : List PVal) : String :=
  "[" ++ String.intercalate ", " (xs.map pyStrVal) ++ "]"

mutual

/-- `ToolRegistry._validate_parameter_type(param, value)`.  `reMatch`
abstracts `re.match(pattern, value)` truthiness (total here, so the
source's catch-all "Validation error" branch for a bad regex is
unreachable). -/
def validateParameterType (reMatch : String → String → Bool)
    (p : ToolParameter) (v : PVal) : Option String :=
  if v.isNone then
    if p.required then some "is required but got null" else none
  else
    let typeErr : Option String :=
      match p.type with
      | .string =>
        match v with
        | .vStr s =>
          match p.pattern with
          | some pat =>
            if pat != "" && !reMatch pat s then
              some ("does not match pattern " ++ pat)
            else none
          | none => none
        | _ => some ("expected string, got " ++ pyTypeName v)
      | .integer =>
        if !pyIsInstInt v then some ("expected integer, got " ++ pyTypeName v)
        else
          match p.minimum, v.toRat? with
          | some m, some x =>
            if x < m then some ("must be >= " ++ toString m)
            else
              match p.maximum, v.toRat? with
              | some M, some y =>
                if y > M then some ("must be <= " ++ toString M) else none
              | _, _ => none
          | _, _ =>
            match p.maximum, v.toRat? with
            | some M, some y =>
              if y > M then some ("must be <= " ++ toString M) else none
            | _, _ => none
      | .number =>
        if !pyIsInstNum v then some ("expected number, got " ++ pyTypeName v)
        else
          match p.minimum, v.toRat? with
          | some m, some x =>
            if x < m then some ("must be >= " ++ toString m)
            else
              match p.maximum, v.toRat? with
              | some M, some y =>
                if y > M then some ("must be <= " ++ toString M) else none
              | _, _ => none
          | _, _ =>
            match p.maximum, v.toRat? with
            | some M, some y =>
              if y > M then some ("must be <= " ++ toString M) else none
            | _, _ => none
      | .boolean =>
        match v with
        | .vBool _ => none
        | _ => some ("expected boolean, got " ++ pyTypeName v)
      | .array =>
        match v with
        | .vList xs =>
          match p.items with
          | some ip => validateItems reMatch ip xs 0
          | none => none
        | _ => some ("expected array, got " ++ pyTypeName v)
      | .object =>
        match v with
        | .vDict _ => none
        | _ => some ("expected object, got " ++ pyTypeName v)
    match typeErr with
    | some e => some e
    | none =>
      match p.enum with
      | some es =>
        if !es.isEmpty && !pyMem v es then
          some ("must be one of " ++ pyReprList es ++ ", got " ++ pyStrVal v)
        else none
      | none => none

/-- The `for i, item in enumerate(value)` loop of the array branch. -/
def validateItems (reMatch : String → String → Bool) (ip : ToolParameter)
    (xs : List PVal) (i : Nat) : Option String :=
  match xs with
  | [] => none
  | x :: rest =>
    match validateParameterType reMatch ip x with
    | some e => some ("item " ++ toString i ++ ": " ++ e)
    | none => validateItems reMatch ip rest (i + 1)

end

/-- The `for param_name, value in arguments.items()` loop of
`_validate_arguments`. -/
def validateArgsLoop (reMatch : String → String → Bool) (tool : Tool) :
    List (String × PVal) → Option String
  | [] => none
  | (k, v) :: rest =>
    match tool.parameters.find? (fun p => p.name == k) with
    | none => some ("Unknown parameter '" ++ k ++ "'")
    | some pd =>
      match validateParameterType reMatch pd v with
      | some e => some ("Parameter '" ++ k ++ "': " ++ e)
      | none => validateArgsLoop reMatch tool rest

/-- `ToolRegistry._validate_arguments(tool, arguments)`: `none` when valid,
the error message otherwise. -/
def validateArguments (reMatch : String → String → Bool) (tool : Tool)
    (args : List (String × PVal)) : Option String :=
  match tool.parameters.find? (fun p => p.required && !pyHasKey args p.name) with
  | some p => some ("Required parameter '" ++ p.name ++ "' is missing")
  | none => validateArgsLoop reMatch tool args

/-- `ToolRegistry.execute_tool(tool_name, arguments)`.  The source wraps the
body in a catch-all that converts any raised exception into a failed
`ToolExecution`, so the embedding is total. -/
def executeTool (reMatch : String → String → Bool) (reg : Registry)
    (toolName : String) (args : List (String × PVal)) : ToolExecution :=
  match (reg.tools.find? (fun kv => kv.1 == toolName)).map (·.2) with
  | none =>
    { success := false,
      error := some ("Tool '" ++ toolName ++ "' not found. Available tools: "
                     ++ pyStrListStr (reg.tools.map (·.1))) }
  | some tool =>
    match (reg.handlers.find? (fun kv => kv.1 == toolName)).map (·.2) with
    | none =>
      { success := false,
        error := some ("No handler found for tool '" ++ toolName ++ "'") }
    | some handler =>
      match validateArguments reMatch tool args with
      | some verr =>
        { success := false,
          error := some ("Argument validation failed: " ++ verr) }
      | none =>
        match handler args with
        | .ok r => { success := true, result := r }
        | .error e => { success := false, error := some e }

/-! ## `src/mcp/mcp2025_server.py` — JSON-RPC handlers -/

/-- JSON-RPC error codes used by the server. -/
def PARSE_ERROR : Int := -32700
def INVALID_REQUEST : Int := -32600
def METHOD_NOT_FOUND : Int := -32601
def INVALID_PARAMS : Int := -32602
def INTERNAL_ERROR : Int := -32603
def MCP_TOOL_EXECUTION_ERROR : Int := -32002

/-- The `.value` string of a `ToolParameterType` member. -/
def ToolParameterType.valueStr : ToolParameterType → String
  | .object => "object"
  | .array => "array"
  | .string => "string"
  | .integer => "integer"
  | .number => "number"
  | .boolean => "boolean"

/-- A JSON-RPC reply: success response or error response. -/
inductive JRResp where
  | response (id : Int) (result : PVal)
  | errorResponse (id : Option Int) (code : Int) (message : String)

/-- `MCP2025Server._convert_tool_parameters_to_schema(tool)`. -/
def convertToolParametersToSchema (tool : Tool) : PVal :=
  if tool.parameters.isEmpty then
    .vDict [("type", .vStr "object"), ("properties", .vDict []),
            ("required", .vList [])]
  else
    let props : List (String × PVal) := tool.parameters.map (fun p =>
      let base : List (String × PVal) :=
        [("type", .vStr p.type.valueStr), ("description", .vStr p.description)]
      let base := base ++
        (match p.enum with
         | some es => if !es.isEmpty then [("enum", .vList es)] else []
         | none => [])
      let base := base ++
        (match p.minimum with
         | some m => [("minimum", .vNum m)]
         | none => [])
      let base := base ++
        (match p.maximum with
         | some m => [("maximum", .vNum m)]
         | none => [])
      let base := base ++
        (match p.pattern with
         | some pat => if pat != "" then [("pattern", .vStr pat)] else []
         | none => [])
      let base := base ++
        (if p.default.isNone then [] else [("default", p.default)])
      let base := base ++
        (match p.type, p.items with
         | .array, some ip =>
           let itemsSchema : List (String × PVal) :=
             [("type", .vStr ip.type.valueStr),
              ("description", .vStr ip.description)]
           let itemsSchema := itemsSchema ++
             (match ip.enum with
              | some es => if !es.isEmpty then [("enum", .vList es)] else []
              | none => [])
           [("items", .vDict itemsSchema)]
         | _, _ => [])
      (p.name, .vDict base))
    let required : List PVal :=
      (tool.parameters.filter (fun p => p.required)).map (fun p => .vStr p.name)
    .vDict [("type", .vStr "object"), ("properties", .vDict props),
            ("required", .vList required)]

/-- The MCP-format tool dict built inside `_handle_tools_list`. -/
def mcpToolOfTool (tool : Tool) : PVal :=
  .vDict [("name", .vStr tool.name), ("description", .vStr tool.description),
          ("inputSchema", convertToolParametersToSchema tool)]

/-- Python index normalization for a slice bound. -/
def pyNormIdx (len : Nat) (i : Int) : Nat :=
  if i < 0 then ((len : Int) + i).toNat else min i.toNat len

/-- Python list slice `l[a:b]`. -/
def pySlice {α : Type} (l : List α) (a b : Int) : List α :=
  (l.take (pyNormIdx l.length b)).drop (pyNormIdx l.length a)

/-- Digits of `n`, least significant first (decimal). -/
def natDigitsRev (n : Nat) : List Char :=
  if h : n < 10 then [Char.ofNat (48 + n)]
  else Char.ofNat (48 + n % 10) :: natDigitsRev (n / 10)
termination_by n
decreasing_by exact Nat.div_lt_self (by omega) (by omega)

/-- Python `str(n)` for a natural number. -/
def pyStrNat (n : Nat) : String :=
  ⟨(natDigitsRev n).reverse⟩

/-- Python `str(i)` for an integer. -/
def pyStrInt (i : Int) : String :=
  if i < 0 then "-" ++ pyStrNat i.natAbs else pyStrNat i.natAbs

/-- Fold a digit string into a number. -/
def digitsToNat (cs : List Char) : Nat :=
  cs.foldl (fun acc c => acc * 10 + (c.toNat - 48)) 0

/-- Parse an all-digit, non-empty character list. -/
def pyParseDigits (cs : List Char) : Option Nat :=
  if cs.isEmpty then none
  else if cs.all (fun c => 48 ≤ c.toNat && c.toNat ≤ 57) then some (digitsToNat cs)
  else none

/-- Python `int(s)` restricted to an optional sign and decimal digits
(whitespace/underscore tolerance is irrelevant to the embedded callers). -/
def pyInt (s : String) : Option Int :=
  match s.data with
  | [] => none
  | c :: cs =>
    if c = '-' then (pyParseDigits cs).map (fun n => -(n : Int))
    else (pyParseDigits (c :: cs)).map (fun n => (n : Int))

def DEFAULT_PAGE_SIZE : Int := 50

/-- The pagination core of `MCP2025Server._handle_tools_list`: parse the
cursor (empty/absent means index 0; unparsable is the invalid-cursor
error), slice a 50-element page, and emit `nextCursor` iff the end index is
still inside the list. -/
def toolsListStep (tools : List Tool) (cursor : Option String) :
    Except String (List PVal × Option String) :=
  let mcpTools := tools.map mcpToolOfTool
  let cursorIndex : Except String Int :=
    match cursor with
    | some s =>
      if s != "" then
        match pyInt s with
        | some i => .ok i
        | none => .error "Invalid cursor format"
      else .ok 0
    | none => .ok 0
  match cursorIndex with
  | .error e => .error e
  | .ok startIndex =>
    let endIndex := startIndex + DEFAULT_PAGE_SIZE
    let paginated := pySlice mcpTools startIndex endIndex
    let nextCursor :=
      if endIndex < (mcpTools.length : Int) then some (pyStrInt endIndex)
      else none
    .ok (paginated, nextCursor)

/-- `MCP2025Server._handle_tools_list(request)` as a JSON-RPC reply. -/
def handleToolsList (tools : List Tool) (id : Int) (cursor : Option String) :
    JRResp :=
  match toolsListStep tools cursor with
  | .ok (page, next) =>
    .response id (.vDict
      [("tools", .vList page),
       ("nextCursor", match next with | some s => .vStr s | none => .vNone)])
  | .error e => .errorResponse (some id) INVALID_PARAMS e

/-- The client-side paging protocol of the claim: start with no cursor and
keep passing back each reply's `nextCursor`; `none` when the fuel runs out
or a step fails. -/
def drivePages (tools : List Tool) : Nat → Option String →
    Option (List (List PVal))
  | 0, _ => none
  | fuel + 1, cursor =>
    match toolsListStep tools cursor with
    | .error _ => none
    | .ok (page, none) => some [page]
    | .ok (page, some c) => (drivePages tools fuel (some c)).map (page :: ·)

/-- Parsed `tools/call` params (`MCPToolsCallParams`). -/
structure ToolsCallParams where
  name : String
  arguments : Option (List (String × PVal))

/-- The success-result construction of `_handle_tools_call` (content list
from the result dict's `message`/`data`/`image`/`audio`/`resource`/
`resource_link` keys, plus `structuredContent` for dict data). -/
def toolsCallSuccessResult (result : List (String × PVal)) : PVal :=
  let textItem (v : PVal) : PVal :=
    .vDict [("type", .vStr "text"), ("text", v)]
  let content : List PVal :=
    match pyGet result "message" with
    | some m => [textItem m]
    | none => []
  let (content, structured) :=
    match pyGet result "data" with
    | some d =>
      match d with
      | .vStr _ => (content ++ [textItem d], PVal.vNone)
      | .vDict _ => (content ++ [textItem (.vStr (pyStrVal d))], d)
      | _ => (content ++ [textItem (.vStr (pyStrVal d))], PVal.vNone)
    | none => (content, PVal.vNone)
  let content := content ++
    (match pyGet result "image" with
     | some (.vDict img) =>
       [PVal.vDict [("type", .vStr "image"), ("data", pyGetD img "data" .vNone),
                    ("mimeType", pyGetD img "mimeType" (.vStr "image/png"))]]
     | _ => [])
  let content := content ++
    (match pyGet result "audio" with
     | some (.vDict aud) =>
       [PVal.vDict [("type", .vStr "audio"), ("data", pyGetD aud "data" .vNone),
                    ("mimeType", pyGetD aud "mimeType" (.vStr "audio/wav"))]]
     | _ => [])
  let content := content ++
    (match pyGet result "resource" with
     | some r => [PVal.vDict [("type", .vStr "resource"), ("resource", r)]]
     | none => [])
  let content := content ++
    (match pyGet result "resource_link" with
     | some (.vDict lnk) =>
       [PVal.vDict [("type", .vStr "resource_link"),
                    ("uri", pyGetD lnk "uri" .vNone),
                    ("name", pyGetD lnk "name" .vNone),
                    ("description", pyGetD lnk "description" .vNone),
                    ("mimeType", pyGetD lnk "mimeType" .vNone)]]
     | _ => [])
  let base := [("content", PVal.vList content), ("isError", PVal.vBool false)]
  if pyTruthy structured then
    .vDict (base ++ [("structuredContent", structured)])
  else
    .vDict base

/-- The failed-execution result of `_handle_tools_call`
(`MCPToolsCallResult(content=[{type:"text", text:error}], isError=True)`). -/
def toolsCallFailResult (errMsg : String) : PVal :=
  .vDict [("content",
           .vList [.vDict [("type", .vStr "text"), ("text", .vStr errMsg)]]),
          ("isError", .vBool true)]

/-- `execution.error or "Tool execution failed"` (Python `or`). -/
def errorOrDefault : Option String → String
  | some s => if s != "" then s else "Tool execution failed"
  | none => "Tool execution failed"

/-- `MCP2025Server._handle_tools_call(request)`.  Params arrive already
parsed; `none` covers the falsy `request.params` check.  A failed execution
is returned as a success JSON-RPC response with `isError=true`. -/
def handleToolsCall (reMatch : String → String → Bool) (reg : Registry)
    (id : Int) (params : Option ToolsCallParams) : JRResp :=
  match params with
  | none => .errorResponse (some id) INVALID_PARAMS "Tool call requires params"
  | some p =>
    let ex := executeTool reMatch reg p.name (p.arguments.getD [])
    if ex.success then
      .response id (toolsCallSuccessResult ex.result)
    else
      .response id (toolsCallFailResult (errorOrDefault ex.error))

/-! ## `src/mcp/tools/switch_provider_tool.py` -/

/-- `SwitchProviderTool.get_tool_definition()`. -/
def switchProviderToolDef : Tool :=
  { name := "switch_provider"
    description := "Switch the active AI provider. Requires confirmation before making the change. Shows comparison between current and target provider."
    parameters :=
      [mkParam "provider" .string "Target provider to switch to" true .vNone
        (some [.vStr "openai", .vStr "anthropic", .vStr "gemini", .vStr "openrouter"]),
       mkParam "confirm" .boolean
         "Explicit confirmation to proceed with the switch" false (.vBool false),
       mkParam "model" .string
         "Optional: specific model to use with the new provider"]
    examples :=
      ["switch_provider(provider='anthropic')",
       "switch_provider(provider='openai', confirm=true)",
       "switch_provider(provider='gemini', model='gemini-1.5-pro', confirm=true)"]
    category := "ai_configuration"
    version := "1.0.0" }

/-- The catch-all error result of `SwitchProviderTool.execute`. -/
def switchProviderErrResult (e : String) : List (String × PVal) :=
  [("status", .vStr "error"), ("error", .vStr e),
   ("message", .vStr ("Failed to switch provider: " ++ e)),
   ("tool", .vStr "switch_provider")]

/-- `SwitchProviderTool.execute(arguments)` over the server state.  All
reads and mutations go through the embedded `MCP2025Server` methods; raised
exceptions become the handler's catch-all error dict. -/
def switchProviderExecute (st : ServerSt) (args : List (String × PVal)) :
    List (String × PVal) × ServerSt :=
  match pyGet args "provider" with
  | none => (switchProviderErrResult "'provider'", st)
  | some targetProvider =>
    let confirmed := pyGetD args "confirm" (.vBool false)
    let targetModel := pyGetD args "model" .vNone
    let (cfg, st) := getActiveProviderConfig st
    let currentProvider := pyGetD cfg "provider" .vNone
    let currentModel := pyGetD cfg "model" .vNone
    if pyEq currentProvider targetProvider && !pyTruthy targetModel then
      ([("status", .vStr "no_change"),
        ("message", .vStr ("Already using " ++ pyStrVal targetProvider)),
        ("current_provider", currentProvider),
        ("current_model", currentModel),
        ("tool", .vStr "switch_provider")], st)
    else if !pyMem targetProvider (getAvailableProviders.map (.vStr ·)) then
      ([("status", .vStr "error"),
        ("error", .vStr ("Provider '" ++ pyStrVal targetProvider ++ "' not available")),
        ("message", .vStr ("Available providers: "
                           ++ String.intercalate ", " getAvailableProviders)),
        ("tool", .vStr "switch_provider")], st)
    else
      -- at this point `targetProvider` equals one of the provider name
      -- strings, so reading it back as a string is exact
      match getAvailableModels targetProvider.asStr with
      | .error e => (switchProviderErrResult e, st)
      | .ok (_, modelsInfo) =>
        let availableModels := modelsInfo.map (·.name)
        let modelCheck : Except (List (String × PVal)) PVal :=
          if pyTruthy targetModel then
            if !pyMem targetModel (availableModels.map (.vStr ·)) then
              .error
                [("status", .vStr "error"),
                 ("error", .vStr ("Model '" ++ pyStrVal targetModel
                                  ++ "' not available for " ++ pyStrVal targetProvider)),
                 ("message", .vStr ("Available models: "
                                    ++ String.intercalate ", " availableModels)),
                 ("tool", .vStr "switch_provider")]
            else .ok targetModel
          else
            match availableModels with
            | m :: _ => .ok (.vStr m)
            | [] =>
              .error
                [("status", .vStr "error"),
                 ("error", .vStr ("No models available for "
                                  ++ pyStrVal targetProvider)),
                 ("tool", .vStr "switch_provider")]
        match modelCheck with
        | .error r => (r, st)
        | .ok finalModel =>
          if !pyTruthy confirmed then
            let comparison := String.intercalate "\n"
              ["🔄 Provider Switch Request",
               String.mk (List.replicate 50 '='),
               "",
               "Current Configuration:",
               "  Provider: " ++ pyStrVal currentProvider,
               "  Model: " ++ pyStrVal currentModel,
               "",
               "Target Configuration:",
               "  Provider: " ++ pyStrVal targetProvider,
               "  Model: " ++ pyStrVal finalModel,
               "",
               "⚠️  This will change the AI provider for all future interactions.",
               "",
               "To confirm, use: switch_provider(provider='"
                 ++ targetProvider.asStr ++ "', confirm=true)"]
            ([("status", .vStr "confirmation_required"),
              ("message", .vStr comparison),
              ("current_provider", currentProvider),
              ("current_model", currentModel),
              ("target_provider", targetProvider),
              ("target_model", finalModel),
              ("tool", .vStr "switch_provider")], st)
          else
            match switchActiveProvider st targetProvider.asStr with
            | (.error e, st) => (switchProviderErrResult e, st)
            | (.ok _, st) =>
              let afterModel : Except String ServerSt :=
                if pyTruthy targetModel then
                  match setProviderParameter st targetProvider.asStr "model" finalModel with
                  | (.error e, _) => .error e
                  | (.ok _, st') => .ok st'
                else .ok st
              match afterModel with
              | .error e => (switchProviderErrResult e, st)
              | .ok st =>
                let resultLines := String.intercalate "\n"
                  ["✅ Provider switched successfully!",
                   "",
                   "Previous: " ++ pyStrVal currentProvider
                     ++ " (" ++ pyStrVal currentModel ++ ")",
                   "Current: " ++ pyStrVal targetProvider
                     ++ " (" ++ pyStrVal finalModel ++ ")",
                   "",
                   "The new provider is now active for all interactions."]
                ([("status", .vStr "success"),
                  ("message", .vStr resultLines),
                  ("previous_provider", currentProvider),
                  ("previous_model", currentModel),
                  ("current_provider", targetProvider),
                  ("current_model", finalModel),
                  ("tool", .vStr "switch_provider")], st)

/-! ## `src/mcp/tools/reset_config_tool.py` -/

/-- `ResetConfigTool.get_tool_definition()`. -/
def resetConfigToolDef : Tool :=
  { name := "reset_config"
    description := "Reset AI configuration parameters to their default values. Requires confirmation before making changes."
    parameters :=
      [mkParam "provider" .string
         "Provider to reset. Uses current provider if not specified." false .vNone
         (some [.vStr "openai", .vStr "anthropic", .vStr "gemini",
                .vStr "openrouter", .vStr "all"]),
       mkParam "confirm" .boolean
         "Explicit confirmation to proceed with the reset" false (.vBool false),
       mkParam "parameters" .array
         "Specific parameters to reset. If not provided, all parameters will be reset."
         false .vNone none none none none none
         (some (mkParam "parameter" .string "Parameter name to reset"))]
    examples :=
      ["reset_config()", "reset_config(confirm=true)",
       "reset_config(provider='openai', confirm=true)",
       "reset_config(parameters=['temperature', 'max_tokens'], confirm=true)",
       "reset_config(provider='all', confirm=true)"]
    category := "ai_configuration"
    version := "1.0.0" }

/-- One per-parameter record collected by `ResetConfigTool.execute`
(`{"current": …, "default": …, "will_change": …}`). -/
structure ChangeInfo where
  current : PVal
  default : PVal
  will_change : Bool

/-- The per-provider details map: provider (as passed around, a Python
value) paired with either the collection error string or the per-parameter
changes. -/
abbrev ResetDetails := List (PVal × Except String (List (String × ChangeInfo)))

/-- Serialize the details map into the result dict's `reset_details`
value. -/
def resetDetailsToPVal (details : ResetDetails) : PVal :=
  .vDict (details.map (fun kv =>
    (kv.1.asStr,
     match kv.2 with
     | .error e => .vDict [("error", .vStr e)]
     | .ok chs => .vDict (chs.map (fun c =>
         (c.1, .vDict [("current", c.2.current), ("default", c.2.default),
                       ("will_change", .vBool c.2.will_change)]))))))

/-- The catch-all error result of `ResetConfigTool.execute`. -/
def resetConfigErrResult (e : String) : List (String × PVal) :=
  [("status", .vStr "error"), ("error", .vStr e),
   ("message", .vStr ("Failed to reset configuration: " ++ e)),
   ("tool", .vStr "reset_config")]

/-- The message block built for one provider in the confirmation request. -/
def resetProviderLines (provider : PVal)
    (changes : Except String (List (String × ChangeInfo))) : List String :=
  match changes with
  | .error e => ["❌ " ++ pyStrVal provider ++ ": " ++ e, ""]
  | .ok chs =>
    let changeLines := (chs.filter (fun c => c.2.will_change)).map (fun c =>
      "  • " ++ c.1 ++ ": " ++ pyStrVal c.2.current ++ " → " ++ pyStrVal c.2.default)
    ["📦 " ++ (pyStrVal provider).toUpper ++ ":"]
      ++ (if changeLines.isEmpty then ["  (no changes needed)"] else changeLines)
      ++ [""]

/-- The list items of a `parameters` argument (non-list arguments are
excluded by registry validation). -/
def pvalItems : PVal → List PVal
  | .vList xs => xs
  | _ => []

/-- The provider list `ResetConfigTool.execute` iterates, and whether this
is a reset of all providers. -/
def resetProviders (st : ServerSt) (args : List (String × PVal)) :
    List PVal × Bool :=
  let specifiedProvider := pyGetD args "provider" .vNone
  let currentProvider :=
    pyGetD (flatActiveConfig (cacheDoc st)) "provider" .vNone
  if pyEq specifiedProvider (.vStr "all") then
    (getAvailableProviders.map (.vStr ·), true)
  else
    ([if pyTruthy specifiedProvider then specifiedProvider else currentProvider],
     false)

/-- The per-provider changes record collected for one provider. -/
def resetChangesFor (specificParams : PVal) (st : ServerSt)
    (provider : PVal) : List (String × ChangeInfo) :=
  let constraints := (getParameterConstraints st provider.asStr).1
  let paramsToReset :=
    if pyTruthy specificParams then
      constraints.filter (fun kv =>
        pyMem (.vStr kv.1) (pvalItems specificParams))
    else constraints
  paramsToReset.map (fun kv =>
    (kv.1,
     { current := kv.2.current_value, default := kv.2.default,
       will_change := !pyEq kv.2.current_value kv.2.default }))

/-- The collection loop of `ResetConfigTool.execute`, in provider order:
`get_parameter_constraints` is total in the embedding, so the per-provider
`except` branch is never taken. -/
def resetCollectDetails (specificParams : PVal) :
    List PVal → ServerSt → ResetDetails × ServerSt
  | [], st => ([], st)
  | provider :: rest, st =>
    let changes := resetChangesFor specificParams st provider
    let st' := (getParameterConstraints st provider.asStr).2
    let (ds, st'') := resetCollectDetails specificParams rest st'
    ((provider, .ok changes) :: ds, st'')

/-- `any_changes` over the collected details. -/
def resetAnyChanges (details : ResetDetails) : Bool :=
  details.any (fun kv =>
    match kv.2 with
    | .ok chs => chs.any (fun c => c.2.will_change)
    | .error _ => false)

/-- `ResetConfigTool.execute(arguments)` over the server state.  The
provider list is `resetProviders st0 args` (its `current_provider` read is
the same flattened-configuration read the handler performs). -/
def resetConfigExecute (st0 : ServerSt) (args : List (String × PVal)) :
    List (String × PVal) × ServerSt :=
  let specifiedProvider := pyGetD args "provider" .vNone
  let confirmed := pyGetD args "confirm" (.vBool false)
  let specificParams := pyGetD args "parameters" (.vList [])
  let st := (getActiveProviderConfig st0).2
  let (providers, resetAll) : List PVal × Bool := resetProviders st0 args
  let (details, st) : ResetDetails × ServerSt :=
    resetCollectDetails specificParams providers st
  let anyChanges := resetAnyChanges details
  if !anyChanges then
    ([("status", .vStr "no_change"),
      ("message", .vStr "All parameters are already at their default values"),
      ("tool", .vStr "reset_config")], st)
  else if !pyTruthy confirmed then
    let lines :=
      ["🔄 Configuration Reset Request", String.mk (List.replicate 50 '='), ""]
        ++ (if resetAll then
              ["⚠️  This will reset ALL providers to default settings!", ""]
            else [])
        ++ (details.map (fun kv => resetProviderLines kv.1 kv.2)).flatten
        ++ ["To confirm, use: reset_config("
            ++ (if pyTruthy specifiedProvider then
                  "provider='" ++ pyStrVal specifiedProvider ++ "', "
                else "")
            ++ "confirm=true)"]
    ([("status", .vStr "confirmation_required"),
      ("message", .vStr (String.intercalate "\n" lines)),
      ("reset_details", resetDetailsToPVal details),
      ("tool", .vStr "reset_config")], st)
  else
    -- confirmed: apply the reset per provider
    let (stats, st) :
        (Int × Int × List (PVal × String)) × ServerSt :=
      details.foldl
        (fun (acc : (Int × Int × List (PVal × String)) × ServerSt) kv =>
          let ((successCount, errorCount, results), st) := acc
          match kv.2 with
          | .error _ => ((successCount, errorCount, results), st)
          | .ok chs =>
            let paramsToReset : List (String × PVal) :=
              (chs.filter (fun c => c.2.will_change)).map (fun c =>
                (c.1, c.2.default))
            if paramsToReset.isEmpty then
              ((successCount, errorCount, results ++ [(kv.1, "no_changes")]), st)
            else if pyTruthy specificParams then
              -- reset the specified parameters one by one
              let (outcome, successCount, st) :
                  Except String Unit × Int × ServerSt :=
                paramsToReset.foldl
                  (fun (acc : Except String Unit × Int × ServerSt) p =>
                    match acc with
                    | (.error e, n, st) => (.error e, n, st)
                    | (.ok _, n, st) =>
                      match setProviderParameter st kv.1.asStr p.1 p.2 with
                      | (.error e, st) => (.error e, n, st)
                      | (.ok _, st) => (.ok (), n + 1, st))
                  (.ok (), successCount, st)
              match outcome with
              | .error e =>
                ((successCount, errorCount + 1,
                  results ++ [(kv.1, "error: " ++ e)]), st)
              | .ok _ =>
                ((successCount, errorCount, results ++ [(kv.1, "success")]), st)
            else
              match resetToDefaults st kv.1.asStr with
              | (.error e, st) =>
                ((successCount, errorCount + 1,
                  results ++ [(kv.1, "error: " ++ e)]), st)
              | (.ok _, st) =>
                ((successCount + 1, errorCount,
                  results ++ [(kv.1, "success")]), st))
        ((0, 0, []), st)
    let (successCount, errorCount, results) := stats
    let (status, resultLines) :=
      if errorCount == 0 then
        ("success",
         ["✅ Configuration reset successfully!", ""]
           ++ results.filterMap (fun r =>
                if r.2 == "success" then
                  some ("✓ " ++ pyStrVal r.1 ++ ": Reset to defaults")
                else if r.2 == "no_changes" then
                  some ("- " ++ pyStrVal r.1 ++ ": Already at defaults")
                else none)
           ++ ["",
               "All affected parameters have been reset to their default values."])
      else
        ("partial_success",
         ["⚠️  Configuration reset completed with errors", ""]
           ++ results.filterMap (fun r =>
                if r.2 == "success" then
                  some ("✓ " ++ pyStrVal r.1 ++ ": Reset to defaults")
                else if "error".isPrefixOf r.2 then
                  some ("❌ " ++ pyStrVal r.1 ++ ": " ++ r.2)
                else none))
    ([("status", .vStr status),
      ("message", .vStr (String.intercalate "\n" resultLines)),
      ("providers_reset", .vInt successCount),
      ("errors", .vInt errorCount),
      ("details", .vDict (results.map (fun r => (r.1.asStr, .vStr r.2)))),
      ("tool", .vStr "reset_config")], st)

/-! ## `src/mcp/tools/ai_config_tool.py` -/

/-- `AIConfigurationTool.get_tool_definition()`: the registered
`ai_configure` tool takes a natural-language `request` plus optional
`context` and `confidence_threshold`. -/
def aiConfigureToolDef : Tool :=
  { name := "ai_configure"
    description := "Configure AI model parameters using natural language commands. Supports creative/conservative adjustments, explicit parameter setting, and provider-aware constraints."
    parameters :=
      [mkParam "request" .string
         "Natural language description of desired parameter changes. Examples: 'make responses more creative', 'set temperature to 0.8', 'reduce randomness and be more focused'"
         true,
       mkParam "context" .object
         "Additional context for the configuration request" false .vNone
         none none none none
         (some
           [("user_preference",
             mkParam "user_preference" .string
               "User's preferred style (creative, balanced, focused)"),
            ("current_task",
             mkParam "current_task" .string
               "Current task context for parameter optimization")]),
       mkParam "confidence_threshold" .number
         "Minimum confidence required to apply changes automatically (0.0-1.0)"
         false (.vNum (mkRat 4 5)) none (some 0) (some 1)]
    examples :=
      ["ai_configure(request='make responses more creative and colorful')",
       "ai_configure(request='set temperature to 0.9')",
       "ai_configure(request='reduce randomness and be more focused')",
       "ai_configure(request='make responses shorter and more concise')",
       "ai_configure(request='reset all parameters to default values')",
       "ai_configure(request='turn up creativity to maximum', context=\x7b'user_preference': 'creative'\x7d)"]
    category := "ai_configuration"
    version := "1.0.0" }

/-! ## `src/adapters/openai_adapter.py` -/

/-- `delta.tool_calls[i].function` in an OpenAI stream chunk. -/
structure OAFunctionDelta where
  name : Option String := none
  arguments : Option String := none
  deriving Repr, DecidableEq

/-- One element of `delta.tool_calls`. -/
structure OAToolCallDelta where
  id : Option String := none
  function : Option OAFunctionDelta := none
  deriving Repr, DecidableEq

/-- `choice.delta`. -/
structure OADelta where
  content : Option String := none
  tool_calls : Option (List OAToolCallDelta) := none
  deriving Repr, DecidableEq

/-- One element of `chunk.choices`. -/
structure OAChoice where
  delta : OADelta
  finish_reason : Option String := none
  deriving Repr, DecidableEq

/-- One streamed chunk. -/
structure OAChunk where
  choices : List OAChoice
  deriving Repr, DecidableEq

/-- The upstream failure modes the adapter catches
(`openai.APITimeoutError`, `openai.RateLimitError`, `openai.APIError`). -/
inductive OAErr where
  | timeout
  | rateLimit
  | apiError (msg : String)
  deriving Repr, DecidableEq

/-- `AdapterResponse` (`adapters/base.py`). -/
structure AdapterResponse where
  content : Option String := none
  finish_reason : Option String := none
  metadata : List (String × PVal) := []
  tool_calls : List PVal := []

/-- An entry of the adapter's `accumulated_tool_calls` (keyed by the raw
`tool_call.id`, which may be `None`). -/
structure OAAccum where
  id : Option String
  name : Option String
  arguments : String

/-- Serialize an accumulated call the way `model_dump` of the dict would. -/
def OAAccum.toPVal (a : OAAccum) : PVal :=
  .vDict [("id", match a.id with | some s => .vStr s | none => .vNone),
          ("name", match a.name with | some s => .vStr s | none => .vNone),
          ("arguments", .vStr a.arguments)]

/-- The `for tool_call in delta.tool_calls` accumulation loop. -/
def oaAccumulate (accum : List (Option String × OAAccum))
    (toolCalls : List OAToolCallDelta) : List (Option String × OAAccum) :=
  toolCalls.foldl
    (fun accum tc =>
      match tc.function with
      | none => accum
      | some f =>
        let accum :=
          if accum.any (fun kv => kv.1 == tc.id) then accum
          else accum ++ [(tc.id, { id := tc.id, name := f.name, arguments := "" })]
        match f.arguments with
        | some a =>
          if a != "" then
            accum.map (fun kv =>
              if kv.1 == tc.id then
                (kv.1, { kv.2 with arguments := kv.2.arguments ++ a })
              else kv)
          else accum
        | none => accum)
    accum

/-- The `async for chunk in stream` loop of `chat_completion`: returns the
yielded responses and whether the loop ended via the `break` after a
`finish_reason`. -/
def oaLoop (accum : List (Option String × OAAccum)) (chunkCount : Nat) :
    List OAChunk → List AdapterResponse × Bool
  | [] => ([], false)
  | ch :: rest =>
    let cnt := chunkCount + 1
    match ch.choices with
    | [] => oaLoop accum cnt rest
    | choice :: _ =>
      let delta := choice.delta
      let contentOut : List AdapterResponse :=
        match delta.content with
        | some c =>
          if c != "" then
            [{ content := some c, metadata := [("type", .vStr "content_delta")] }]
          else []
        | none => []
      let accum :=
        match delta.tool_calls with
        | some tcs => if tcs.isEmpty then accum else oaAccumulate accum tcs
        | none => accum
      match choice.finish_reason with
      | some reason =>
        let toolCallsOut : List AdapterResponse :=
          if accum.isEmpty then []
          else
            [{ content := none,
               tool_calls := accum.map (fun kv => kv.2.toPVal),
               metadata := [("type", .vStr "tool_calls")] }]
        (contentOut ++ toolCallsOut ++
          [{ content := none, finish_reason := some reason,
             metadata := [("type", .vStr "completion"),
                          ("total_chunks", .vInt cnt)] }], true)
      | none =>
        let (outs, broke) := oaLoop accum cnt rest
        (contentOut ++ outs, broke)

/-- The error `AdapterResponse` yielded by each `except` clause. -/
def oaErrResponse : OAErr → AdapterResponse
  | .timeout =>
    { finish_reason := some "error",
      metadata := [("error", .vStr "API timeout"),
                   ("error_type", .vStr "timeout")] }
  | .rateLimit =>
    { finish_reason := some "error",
      metadata := [("error", .vStr "Rate limit exceeded"),
                   ("error_type", .vStr "rate_limit")] }
  | .apiError msg =>
    { finish_reason := some "error",
      metadata := [("error", .vStr msg), ("error_type", .vStr "api_error")] }

/-- `OpenAIAdapter._get_config()`: fetch the active configuration and
require that it names this adapter's provider. -/
def oaGetConfig (st : ServerSt) :
    Except String (List (String × PVal)) × ServerSt :=
  let (cfg, st) := getActiveProviderConfig st
  let p := pyGetD cfg "provider" .vNone
  if !pyEq p (.vStr "openai") then
    (.error ("Failed to fetch configuration from MCP server: Configuration mismatch: expected provider 'openai', but MCP server returned '"
             ++ pyStrVal p ++ "'"), st)
  else
    (.ok cfg, st)

/-- `OpenAIAdapter.chat_completion(request)` as a function from the
upstream stream to the yielded `AdapterResponse` sequence.  `chunks` is the
prefix of upstream chunks the stream produced; `upstreamErr` is a failure
raised after that prefix (`none` for a stream that ends cleanly).  If the
loop exits via `break`, the generator has already finished, so a pending
upstream error no longer reaches it. -/
def openaiChatCompletion (st : ServerSt) (chunks : List OAChunk)
    (upstreamErr : Option OAErr) : List AdapterResponse × ServerSt :=
  match oaGetConfig st with
  | (.error e, st) =>
    ([{ content := none, finish_reason := some "error",
        metadata := [("error", .vStr ("Configuration error: " ++ e)),
                     ("error_type", .vStr "config_error")] }], st)
  | (.ok _, st) =>
    let (outs, broke) := oaLoop [] 0 chunks
    if broke then (outs, st)
    else
      match upstreamErr with
      | some k => (outs ++ [oaErrResponse k], st)
      | none => (outs, st)

/-! ## Theorems -/

/-- The (provider, model) pairs the constraint mapping table covers:
`get_model_schema` dispatches on the three dedicated providers (any model)
and, for OpenRouter, on three model-name prefix patterns. -/
def coveredBySchemaTable (provider model : String) : Prop :=
  provider = "openai" ∨ provider = "anthropic" ∨ provider = "gemini" ∨
    (provider = "openrouter" ∧
      ("anthropic/claude".isPrefixOf model ∨ "openai/gpt".isPrefixOf model ∨
       "google/gemini".isPrefixOf model))

/-- The key-selection rule as the specification words it: the fragment's
`id` if present, else its `index` if present — whatever its value,
including `0` — else, for OpenAI-class providers, the existing scratch
entry continuing the call in progress (the first in insertion order), else
the synthesized key `tool_call_0`; on other providers a fragment with
neither identifier carries no key.  An `id` is present when it is a
non-empty string: providers that drop the identifier on continuation
chunks send `None` or the empty string, both of which the source's `or`
treats as absent. -/
def specMergeKey (tc : Frag) (scratch : Scratch) (provider : String) :
    Option MergeKey :=
  let idKey : Option MergeKey :=
    match tc.id with
    | some s => if s ≠ "" then some (.str s) else none
    | none => none
  let idxKey : Option MergeKey := tc.index.map .idx
  let fallback : Option MergeKey :=
    if provider = "openai" ∨ provider = "openrouter" then
      some ((scratch.head?.map (·.1)).getD (.str "tool_call_0"))
    else none
  (idKey.orElse fun _ => idxKey).orElse fun _ => fallback

/-- C3 stream shape: the opening fragment carries the id and the name. -/
def c3FirstFrag (n : String) : Frag :=
  { id := some "call_1", function := some { name := some n, arguments := none } }

/-- C3 stream shape: continuation fragments carry only argument pieces. -/
def c3MidFrag (a : String) : Frag :=
  { function := some { name := none, arguments := some a } }

/-- C3 stream shape: the closing fragment carries only the finish reason. -/
def c3FinalFrag (r : String) : Frag :=
  { finish_reason := some r }

/-- Number of terminal elements (completion or error) in an adapter
response sequence: exactly the responses carrying a finish reason. -/
def terminalCount (rs : List AdapterResponse) : Nat :=
  (rs.filter (fun r => r.finish_reason.isSome)).length

/-- Whether a chunk's first choice reports a finish reason. -/
def chunkHasFinish (ch : OAChunk) : Bool :=
  match ch.choices with
  | c :: _ => c.finish_reason.isSome
  | [] => false

/-- Whether some chunk of the stream reports a finish reason. -/
def streamHasFinish (chunks : List OAChunk) : Bool :=
  chunks.any chunkHasFinish

/-- The server state at first startup: default document on disk, nothing
cached, persistence healthy. -/
def initialServerSt : ServerSt :=
  { persisted := defaultConfigDoc, cache := none, saveOk := true,
    notifications := [], trace := [] }

/-- C7: every (provider, model) pair not covered by the mapping table gets
the conservative schema — temperature as a float in [0, 1] with default 0.7
and max_tokens as an integer in [1, 2048] with default 2048. -/
theorem uncovered_pair_gets_conservative_schema
    (provider model : String) (h : ¬ coveredBySchemaTable provider model) :
    getModelSchema provider model = conservativeSchema ∧
    conservativeSchema =
      [("temperature",
        { name := "temperature", param_type := .float, min_value := some 0,
          max_value := some 1, default := .vNum (mkRat 7 10),
          description := "Controls randomness (conservative range)" }),
       ("max_tokens",
        { name := "max_tokens", param_type := .integer, min_value := some 1,
          max_value := some 2048, default := .vInt 2048,
          description := "Maximum tokens (conservative limit)" })] := by
  simp only [coveredBySchemaTable, not_or, not_and_or] at h
  obtain ⟨h1, h2, h3, h4⟩ := h
  refine ⟨?_, rfl⟩
  by_cases hor : provider = "openrouter"
  · rcases h4 with h4 | h4
    · exact absurd hor h4
    · subst hor
      obtain ⟨p1, p2, p3⟩ := h4
      simp [getModelSchema, getOpenrouterSchema, h1, h2, h3, p1, p2, p3]
  · simp [getModelSchema, h1, h2, h3, hor]

/-- Witness for C7 at a pair outside the table. -/
theorem uncovered_pair_gets_conservative_schema_witness :
    getModelSchema "mistral" "mistral-large" = conservativeSchema := by
  exact (uncovered_pair_gets_conservative_schema "mistral" "mistral-large"
    (by unfold coveredBySchemaTable; decide)).1

/-- C10: `execute_tool` is total (it always returns a `ToolExecution`) and
on an unknown tool, a missing handler, or failed argument validation it
returns `success = false` with a non-null error without consulting the
handler — the failure results below are fixed expressions that do not
mention the handler function at all. -/
theorem execute_tool_guards
    (reMatch : String → String → Bool) (reg : Registry)
    (toolName : String) (args : List (String × PVal)) :
    (reg.tools.find? (fun kv => kv.1 == toolName) = none →
      executeTool reMatch reg toolName args =
        { success := false,
          error := some ("Tool '" ++ toolName ++ "' not found. Available tools: "
                         ++ pyStrListStr (reg.tools.map (·.1))) }) ∧
    (∀ kv, reg.tools.find? (fun kv => kv.1 == toolName) = some kv →
      reg.handlers.find? (fun kv => kv.1 == toolName) = none →
      executeTool reMatch reg toolName args =
        { success := false,
          error := some ("No handler found for tool '" ++ toolName ++ "'") }) ∧
    (∀ kv hkv err, reg.tools.find? (fun kv => kv.1 == toolName) = some kv →
      reg.handlers.find? (fun kv => kv.1 == toolName) = some hkv →
      validateArguments reMatch kv.2 args = some err →
      executeTool reMatch reg toolName args =
        { success := false,
          error := some ("Argument validation failed: " ++ err) }) := by
  refine ⟨fun h => ?_, fun kv hkv hh => ?_, fun kv hkv err h1 h2 h3 => ?_⟩
  · simp [executeTool, h]
  · simp [executeTool, hkv, hh]
  · simp [executeTool, h1, h2, h3]

/-- Witness for C10: a registry holding one tool whose handler would
succeed, but called with an unknown argument. -/
theorem execute_tool_guards_witness :
    executeTool (fun _ _ => true)
      { tools := [("ping", { name := "ping", description := "d" })],
        handlers := [("ping", fun _ => .ok [("message", .vStr "pong")])] }
      "ping" [("bogus", .vStr "x")] =
      { success := false,
        error := some "Argument validation failed: Unknown parameter 'bogus'" } := by
  exact (execute_tool_guards (fun _ _ => true) _ "ping" _).2.2
    ("ping", { name := "ping", description := "d" })
    ("ping", fun _ => .ok [("message", .vStr "pong")])
    "Unknown parameter 'bogus'" rfl rfl rfl

/-- C4: whenever `execute_tool` reports failure — in particular when a
registered tool's handler raises (`Except.error`) — `_handle_tools_call`
answers with a *success* JSON-RPC response whose result is
`{content:[{type:"text", text:<error>}], isError:true}`; the failure never
becomes a JSON-RPC error object. -/
theorem tools_call_failure_is_success_response
    (reMatch : String → String → Bool) (reg : Registry) (id : Int)
    (toolName : String) (args : List (String × PVal)) :
    ((executeTool reMatch reg toolName args).success = false →
      handleToolsCall reMatch reg id (some ⟨toolName, some args⟩) =
        .response id
          (toolsCallFailResult
            (errorOrDefault (executeTool reMatch reg toolName args).error))) ∧
    (∀ kv h e, reg.tools.find? (fun kv => kv.1 == toolName) = some kv →
      reg.handlers.find? (fun kv => kv.1 == toolName) = some h →
      validateArguments reMatch kv.2 args = none →
      h.2 args = .error e →
      (executeTool reMatch reg toolName args).success = false ∧
      (executeTool reMatch reg toolName args).error = some e) := by
  constructor
  · intro hfail
    simp [handleToolsCall, hfail]
  · intro kv h e h1 h2 h3 h4
    simp [executeTool, h1, h2, h3, h4]

/-- Witness for C4: a registered tool whose handler raises; the JSON-RPC
reply is a success response carrying `isError:true`. -/
theorem tools_call_failure_is_success_response_witness :
    handleToolsCall (fun _ _ => true)
      { tools := [("boomtool", { name := "boomtool", description := "d" })],
        handlers := [("boomtool", fun _ => .error "boom")] }
      7 (some ⟨"boomtool", some []⟩) =
      .response 7 (toolsCallFailResult "boom") := by
  exact (tools_call_failure_is_success_response (fun _ _ => true)
    { tools := [("boomtool", { name := "boomtool", description := "d" })],
      handlers := [("boomtool", fun _ => .error "boom")] }
    7 "boomtool" []).1 rfl

/-- C8 counterexample: `ai_configure` does not accept `(provider?,
parameter, value)` arguments — validation rejects them because the tool's
required parameter is `request`, and its declared parameters are
`request`/`context`/`confidence_threshold`. -/
theorem ai_configure_rejects_parameter_value_args :
    validateArguments (fun _ _ => true) aiConfigureToolDef
      [("parameter", .vStr "temperature"), ("value", .vStr "0.9")] =
      some "Required parameter 'request' is missing" ∧
    aiConfigureToolDef.parameters.map (fun p => p.name) =
      ["request", "context", "confidence_threshold"] := ⟨rfl, rfl⟩

/-- C8 amended: the registered `ai_configure` tool takes a required
natural-language `request` string plus optional `context` and
`confidence_threshold`; a `(parameter, value)` invocation fails validation
while a `request` invocation passes it. -/
theorem ai_configure_interface (reMatch : String → String → Bool) :
    aiConfigureToolDef.parameters.map (fun p => p.name) =
      ["request", "context", "confidence_threshold"] ∧
    (∃ p, aiConfigureToolDef.parameters.find? (fun p => p.name == "request") = some p ∧
       p.required = true ∧ p.type = .string) ∧
    validateArguments reMatch aiConfigureToolDef
      [("parameter", .vStr "temperature"), ("value", .vStr "0.9")] =
      some "Required parameter 'request' is missing" ∧
    validateArguments reMatch aiConfigureToolDef
      [("request", .vStr "set temperature to 0.9")] = none := by
  refine ⟨rfl, ⟨_, rfl, rfl, rfl⟩, rfl, rfl⟩

/-- C6: for every fragment, scratch buffer and provider, the scratch-map
key chosen by `merge_tool_chunks` is the first of: the fragment's `id` if
present, else its `index` if present — including `index = 0` — else, for
OpenAI-class providers, the existing scratch entry, else the synthesized
`tool_call_0` (`none` = skipped, non-OpenAI-class providers only); and in
particular a fragment carrying `index = 0` but no `id` is keyed by that
index: an anthropic final fragment with `index = 0` is accumulated under
key `0` and emitted as `CompletedToolCall(auto_0, f, x)`. -/
theorem merge_key_selection :
    (∀ (tc : Frag) (scratch : Scratch) (provider : String),
      mergeKeyFor tc scratch provider = specMergeKey tc scratch provider) ∧
    (∀ (n : Int) (scratch : Scratch) (provider : String) (f fr : _) (fin : Bool),
      mergeKeyFor { id := none, index := some n, function := f,
                    finish_reason := fr, is_final := fin } scratch provider
        = some (.idx n)) ∧
    mergeToolChunks
      [{ index := some 0,
         function := some { name := some "f", arguments := some "x" },
         is_final := true }] [] "anthropic" =
      ([⟨"auto_0", "f", "x"⟩], []) := by
  refine ⟨?_, ?_, rfl⟩
  · intro tc scratch provider
    rcases tc with ⟨id, index, f, fr, fin⟩
    have hsc : (match scratch with
        | kv :: _ => some kv.1
        | [] => some (MergeKey.str "tool_call_0")) =
        some ((scratch.head?.map (·.1)).getD (.str "tool_call_0")) := by
      cases scratch <;> rfl
    rcases id with _ | s <;> rcases index with _ | n <;>
      simp only [mergeKeyFor, specMergeKey, Option.orElse, Option.map, hsc] <;>
      split_ifs <;>
      simp_all [bne_iff_ne, Bool.or_eq_true, beq_iff_eq]
  · intro n scratch provider f fr fin
    rfl

/-- Folding `merge_tool_chunks` from an arbitrary accumulated prefix. -/
theorem mergeStream_foldl_acc (provider : String) (chunks : List (List Frag)) :
    ∀ (c0 : List CompletedToolCall) (s : Scratch),
      chunks.foldl
        (fun acc chunk =>
          ((acc.1 ++ (mergeToolChunks chunk acc.2 provider).1,
            (mergeToolChunks chunk acc.2 provider).2)))
        (c0, s)
      = (c0 ++ (mergeStream chunks s provider).1,
         (mergeStream chunks s provider).2) := by
  induction chunks with
  | nil => intro c0 s; simp [mergeStream]
  | cons c cs ih =>
    intro c0 s
    simp only [mergeStream, List.foldl_cons]
    rw [ih, ih]
    simp [List.append_assoc]

/-- One chunk step of `mergeStream`. -/
theorem mergeStream_cons (provider : String) (c : List Frag)
    (cs : List (List Frag)) (s : Scratch) :
    mergeStream (c :: cs) s provider =
      ((mergeToolChunks c s provider).1
         ++ (mergeStream cs (mergeToolChunks c s provider).2 provider).1,
       (mergeStream cs (mergeToolChunks c s provider).2 provider).2) := by
  simp only [mergeStream, List.foldl_cons]
  rw [mergeStream_foldl_acc]
  simp
  exact ⟨rfl, rfl⟩

/-- Splitting `mergeStream` over an append of chunk lists. -/
theorem mergeStream_append (provider : String) (a b : List (List Frag))
    (s : Scratch) :
    mergeStream (a ++ b) s provider =
      ((mergeStream a s provider).1
         ++ (mergeStream b (mergeStream a s provider).2 provider).1,
       (mergeStream b (mergeStream a s provider).2 provider).2) := by
  simp only [mergeStream, List.foldl_append]
  rw [show (List.foldl
      (fun acc chunk =>
        ((acc.1 ++ (mergeToolChunks chunk acc.2 provider).1,
          (mergeToolChunks chunk acc.2 provider).2)))
      ([], s) a : List CompletedToolCall × Scratch)
    = ((mergeStream a s provider).1, (mergeStream a s provider).2) from rfl]
  rw [mergeStream_foldl_acc]
  rfl

/-- The opening fragment creates the `call_1` scratch entry. -/
theorem c3_first_step (provider n : String)
    (hp : provider = "openai" ∨ provider = "openrouter") (hn : n ≠ "") :
    mergeToolChunks [c3FirstFrag n] [] provider =
      ([], [(.str "call_1", ⟨"call_1", n, ""⟩)]) := by
  rcases hp with h | h <;> subst h <;>
    simp [mergeToolChunks, mergeStep, mergeKeyFor, c3FirstFrag,
          scratchSetdefault, scratchStore, isCallFinal, bne_iff_ne, hn]

/-- A continuation fragment appends its argument piece to the single
in-progress entry. -/
theorem c3_mid_step (provider n A a : String)
    (hp : provider = "openai" ∨ provider = "openrouter") :
    mergeToolChunks [c3MidFrag a] [(.str "call_1", ⟨"call_1", n, A⟩)] provider
      = ([], [(.str "call_1", ⟨"call_1", n, A ++ a⟩)]) := by
  rcases hp with h | h <;> subst h <;> by_cases ha : a = "" <;>
    simp [mergeToolChunks, mergeStep, mergeKeyFor, c3MidFrag,
          scratchSetdefault, scratchStore, isCallFinal, bne_iff_ne, ha,
          String.append_empty]

/-- The finishing fragment emits the completed call and clears the
scratch entry. -/
theorem c3_final_step (provider n A r : String)
    (hp : provider = "openai" ∨ provider = "openrouter") (hn : n ≠ "") :
    mergeToolChunks [c3FinalFrag r] [(.str "call_1", ⟨"call_1", n, A⟩)] provider
      = ([⟨"call_1", n, A⟩], []) := by
  rcases hp with h | h <;> subst h <;>
    simp [mergeToolChunks, mergeStep, mergeKeyFor, c3FinalFrag,
          scratchSetdefault, scratchStore, scratchPop, isCallFinal,
          bne_iff_ne, hn]

/-- C3: an OpenAI-class stream made of an id+name fragment, argument-only
fragments with null id, and a closing fragment with a non-null
finish_reason merges to exactly one completed call: id `call_1`, the given
name, and the concatenation of the argument pieces in arrival order. -/
theorem openai_class_fragment_stream_single_call
    (provider n r : String) (args : List String)
    (hp : provider = "openai" ∨ provider = "openrouter") (hn : n ≠ "") :
    mergeStream
      ([c3FirstFrag n] :: (args.map (fun a => [c3MidFrag a]) ++ [[c3FinalFrag r]]))
      [] provider
      = ([⟨"call_1", n, String.join args⟩], []) := by
  have hchain : ∀ (as : List String) (A : String),
      mergeStream (as.map (fun a => [c3MidFrag a]))
        [(.str "call_1", ⟨"call_1", n, A⟩)] provider
        = ([], [(.str "call_1", ⟨"call_1", n, as.foldl (· ++ ·) A⟩)]) := by
    intro as
    induction as with
    | nil => intro A; simp [mergeStream]
    | cons a as ih =>
      intro A
      rw [List.map_cons, mergeStream_cons, c3_mid_step provider n A a hp]
      simp only [List.foldl_cons]
      rw [ih (A ++ a)]
      rfl
  rw [mergeStream_cons, c3_first_step provider n hp hn]
  simp only []
  rw [mergeStream_append, hchain args ""]
  simp only []
  rw [show mergeStream [[c3FinalFrag r]]
        [(.str "call_1", ⟨"call_1", n, args.foldl (· ++ ·) ""⟩)] provider
      = ((mergeToolChunks [c3FinalFrag r]
            [(.str "call_1", ⟨"call_1", n, args.foldl (· ++ ·) ""⟩)] provider).1,
         (mergeToolChunks [c3FinalFrag r]
            [(.str "call_1", ⟨"call_1", n, args.foldl (· ++ ·) ""⟩)] provider).2)
      from by rw [mergeStream_cons]; simp [mergeStream]]
  rw [c3_final_step provider n (args.foldl (· ++ ·) "") r hp hn]
  simp [String.join]

/-- Witness for C3 at a concrete three-piece stream. -/
theorem openai_class_fragment_stream_single_call_witness :
    mergeStream
      ([c3FirstFrag "get_weather"]
        :: (["\x7b\"city\": ", "\"NYC\"\x7d"].map (fun a => [c3MidFrag a])
             ++ [[c3FinalFrag "tool_calls"]]))
      [] "openai"
      = ([⟨"call_1", "get_weather", "\x7b\"city\": \"NYC\"\x7d"⟩], []) := by
  have h := openai_class_fragment_stream_single_call "openai" "get_weather"
    "tool_calls" ["\x7b\"city\": ", "\"NYC\"\x7d"] (Or.inl rfl) (by decide)
  simpa using h

theorem terminalCount_append (a b : List AdapterResponse) :
    terminalCount (a ++ b) = terminalCount a + terminalCount b := by
  simp [terminalCount, List.filter_append]

/-- The stream loop breaks exactly when a chunk reports a finish reason,
and yields one terminal element in that case, none otherwise. -/
theorem oaLoop_spec (chunks : List OAChunk) :
    ∀ (accum : List (Option String × OAAccum)) (cnt : Nat),
      (oaLoop accum cnt chunks).2 = streamHasFinish chunks ∧
      terminalCount (oaLoop accum cnt chunks).1 =
        (if streamHasFinish chunks then 1 else 0) := by
  induction chunks with
  | nil => intro accum cnt; simp [oaLoop, streamHasFinish, terminalCount]
  | cons ch rest ih =>
    intro accum cnt
    cases hch : ch.choices with
    | nil =>
      have := ih accum (cnt + 1)
      simp only [oaLoop, hch]
      simpa [streamHasFinish, chunkHasFinish, hch] using this
    | cons choice cs =>
      cases hfr : choice.finish_reason with
      | some r =>
        constructor
        · simp [oaLoop, hch, hfr, streamHasFinish, chunkHasFinish]
        · simp only [oaLoop, hch, hfr]
          rw [terminalCount_append, terminalCount_append]
          have h1 : terminalCount
              (match choice.delta.content with
               | some c =>
                 if c != "" then
                   [{ content := some c,
                      metadata := [("type", PVal.vStr "content_delta")] }]
                 else []
               | none => []) = 0 := by
            cases choice.delta.content with
            | none => rfl
            | some c =>
              by_cases hc : c = "" <;> simp [terminalCount, hc]
          simp only [h1]
          have h2 : ∀ (acc : List (Option String × OAAccum)),
              terminalCount
                (if acc.isEmpty then []
                 else
                   [{ content := none,
                      tool_calls := acc.map (fun kv => kv.2.toPVal),
                      metadata := [("type", PVal.vStr "tool_calls")] }]) = 0 := by
            intro acc
            by_cases ha : acc.isEmpty <;> simp [terminalCount, ha]
          simp only [h2]
          simp [terminalCount, streamHasFinish, chunkHasFinish, hch, hfr]
      | none =>
        have hrec := ih
          (match choice.delta.tool_calls with
           | some tcs => if tcs.isEmpty then accum else oaAccumulate accum tcs
           | none => accum) (cnt + 1)
        have h1 : terminalCount
            (match choice.delta.content with
             | some c =>
               if c != "" then
                 [{ content := some c,
                    metadata := [("type", PVal.vStr "content_delta")] }]
               else []
             | none => []) = 0 := by
          cases choice.delta.content with
          | none => rfl
          | some c =>
            by_cases hc : c = "" <;> simp [terminalCount, hc]
        constructor
        · simp only [oaLoop, hch, hfr]
          rw [hrec.1]
          simp [streamHasFinish, chunkHasFinish, hch, hfr]
        · simp only [oaLoop, hch, hfr]
          rw [terminalCount_append, h1, hrec.2]
          simp [streamHasFinish, chunkHasFinish, hch, hfr]

/-- C9 counterexample: an upstream stream that ends without ever reporting
a finish reason produces *no* terminal element — the adapter forwards the
content delta and the generator just ends, with neither a completion nor an
error element. -/
theorem adapter_stream_without_finish_has_no_terminal :
    (openaiChatCompletion initialServerSt
        [{ choices := [{ delta := { content := some "Hello" } }] }] none).1
      = [{ content := some "Hello",
           metadata := [("type", .vStr "content_delta")] }] ∧
    terminalCount
      (openaiChatCompletion initialServerSt
        [{ choices := [{ delta := { content := some "Hello" } }] }] none).1 = 0 := by
  constructor <;> rfl

/-- C9 amended: a `chat_completion` stream yields exactly one terminal
element when the configuration fetch fails, when some chunk carries a
finish reason, or when the upstream raises a recognized error after the
streamed prefix; a stream that ends without any of these yields none. -/
theorem openai_chat_completion_terminal_count (st : ServerSt)
    (chunks : List OAChunk) (upstreamErr : Option OAErr) :
    terminalCount (openaiChatCompletion st chunks upstreamErr).1 =
      (match (oaGetConfig st).1 with
       | .error _ => 1
       | .ok _ =>
         if streamHasFinish chunks then 1
         else if upstreamErr.isSome then 1 else 0) := by
  unfold openaiChatCompletion
  rcases hcfg : oaGetConfig st with ⟨res, st'⟩
  cases res with
  | error e => simp [terminalCount]
  | ok cfg =>
    simp only []
    rcases hloop : oaLoop [] 0 chunks with ⟨outs, broke⟩
    have hspec := oaLoop_spec chunks [] 0
    rw [hloop] at hspec
    obtain ⟨hb, hc⟩ := hspec
    simp only at hb hc
    rw [← hb] at hc ⊢
    cases broke with
    | true => simpa using hc
    | false =>
      cases upstreamErr with
      | none => simpa using hc
      | some k =>
        have h1 : terminalCount [oaErrResponse k] = 1 := by cases k <;> rfl
        simp only [Bool.false_eq_true, if_false, Option.isSome_some, if_true]
        rw [terminalCount_append, hc, h1]
        simp

/-- Decimal digit characters are what they look like. -/
theorem charOfNat_toNat_digit (m : Nat) (h : m < 10) :
    (Char.ofNat (48 + m)).toNat = 48 + m := by
  interval_cases m <;> decide

theorem natDigitsRev_ne_nil (n : Nat) : natDigitsRev n ≠ [] := by
  rw [natDigitsRev]
  split <;> simp

theorem natDigitsRev_digits (n : Nat) :
    ∀ c ∈ natDigitsRev n, 48 ≤ c.toNat ∧ c.toNat ≤ 57 := by
  induction n using Nat.strong_induction_on with
  | _ n ih =>
    rw [natDigitsRev]
    split
    · next h =>
      intro c hc
      simp only [List.mem_singleton] at hc
      subst hc
      rw [charOfNat_toNat_digit n h]
      omega
    · next h =>
      intro c hc
      rcases List.mem_cons.mp hc with rfl | hmem
      · rw [charOfNat_toNat_digit (n % 10) (Nat.mod_lt _ (by omega))]
        omega
      · exact ih (n / 10) (Nat.div_lt_self (by omega) (by omega)) c hmem

theorem digitsToNat_append_singleton (xs : List Char) (c : Char) :
    digitsToNat (xs ++ [c]) = digitsToNat xs * 10 + (c.toNat - 48) := by
  simp [digitsToNat, List.foldl_append]

theorem digitsToNat_rev (n : Nat) :
    digitsToNat ((natDigitsRev n).reverse) = n := by
  induction n using Nat.strong_induction_on with
  | _ n ih =>
    rw [natDigitsRev]
    split
    · next h =>
      simp [digitsToNat, charOfNat_toNat_digit n h]
    · next h =>
      rw [List.reverse_cons, digitsToNat_append_singleton,
          ih (n / 10) (Nat.div_lt_self (by omega) (by omega)),
          charOfNat_toNat_digit (n % 10) (Nat.mod_lt _ (by omega))]
      omega

theorem pyStrNat_ne_empty (n : Nat) : pyStrNat n ≠ "" := by
  intro h
  have := congrArg String.data h
  simp only [pyStrNat] at this
  exact natDigitsRev_ne_nil n (by simpa using this)

/-- Round trip: the printed index parses back to itself. -/
theorem pyInt_pyStrNat (n : Nat) : pyInt (pyStrNat n) = some (n : Int) := by
  have hne := natDigitsRev_ne_nil n
  rcases hd : (natDigitsRev n).reverse with _ | ⟨c, cs⟩
  · exact absurd (by simpa using hd) hne
  · have hcmem : c ∈ natDigitsRev n := by
      have : c ∈ (natDigitsRev n).reverse := by rw [hd]; exact List.mem_cons_self ..
      simpa using this
    have hcdig := natDigitsRev_digits n c hcmem
    have hcne : c ≠ '-' := by
      intro h
      subst h
      revert hcdig
      decide
    have hall : ∀ d ∈ (natDigitsRev n).reverse,
        48 ≤ d.toNat ∧ d.toNat ≤ 57 := by
      intro d hdm
      exact natDigitsRev_digits n d (by simpa using hdm)
    simp only [pyInt, pyStrNat, hd, if_neg hcne]
    have hparse : pyParseDigits (c :: cs) = some n := by
      have h1 : ¬(c :: cs : List Char).isEmpty := by simp
      have h2 : (c :: cs : List Char).all
          (fun d => 48 ≤ d.toNat && d.toNat ≤ 57) = true := by
        rw [List.all_eq_true]
        intro d hdm
        have := hall d (hd ▸ hdm)
        simp [this.1, this.2]
      rw [pyParseDigits, if_neg (by simp), if_pos h2]
      rw [← hd, digitsToNat_rev]
    rw [hparse]
    rfl

theorem pyStrInt_ofNat (n : Nat) : pyStrInt (n : Int) = pyStrNat n := by
  rw [pyStrInt, if_neg (by omega)]
  simp

/-- Python slicing at natural bounds is drop-then-take. -/
theorem pySlice_nat {α : Type} (l : List α) (i k : Nat) :
    pySlice l (i : Int) ((i + k : Nat) : Int) = (l.drop i).take k := by
  have h1 : pyNormIdx l.length ((i + k : Nat) : Int) = min (i + k) l.length := by
    rw [pyNormIdx, if_neg (by omega)]
    rw [show ((i + k : Nat) : Int).toNat = i + k from by omega]
  have h2 : pyNormIdx l.length (i : Int) = min i l.length := by
    rw [pyNormIdx, if_neg (by omega)]
    rw [show ((i : Nat) : Int).toNat = i from by omega]
  rw [pySlice, h1, h2]
  by_cases hil : i ≤ l.length
  · rw [Nat.min_eq_left hil, List.drop_take, List.take_eq_take]
    simp only [List.length_drop, List.length_take]
    omega
  · rw [Nat.min_eq_right (by omega), Nat.min_eq_right (by omega),
        List.take_of_length_le (le_refl _), List.drop_eq_nil_of_le (le_refl _),
        List.drop_eq_nil_of_le (by omega), List.take_nil]

/-- One `tools/list` step at a printed natural cursor. -/
theorem toolsListStep_at (tools : List Tool) (i : Nat) :
    toolsListStep tools (some (pyStrNat i)) =
      .ok (((tools.map mcpToolOfTool).drop i).take 50,
           if i + 50 < tools.length then some (pyStrNat (i + 50)) else none) := by
  have hp : pyInt (pyStrNat i) = some (i : Int) := pyInt_pyStrNat i
  have hne : (pyStrNat i != "") = true := by
    simpa using pyStrNat_ne_empty i
  have hcast : ((i : Int) + DEFAULT_PAGE_SIZE) = ((i + 50 : Nat) : Int) := by
    rw [DEFAULT_PAGE_SIZE]; omega
  simp only [toolsListStep, hne, hp, if_true]
  rw [hcast, pySlice_nat (tools.map mcpToolOfTool) i 50]
  have hlen : ((tools.map mcpToolOfTool).length : Int) = (tools.length : Int) := by
    simp
  by_cases hrem : i + 50 < tools.length
  · rw [if_pos (by rw [hlen]; omega), if_pos hrem, pyStrInt_ofNat]
  · rw [if_neg (by rw [hlen]; omega), if_neg hrem]

/-- The step when the client passes no cursor: start index 0. -/
theorem toolsListStep_none (tools : List Tool) :
    toolsListStep tools none =
      .ok ((tools.map mcpToolOfTool).take 50,
           if 50 < tools.length then some (pyStrNat 50) else none) := by
  have hs := pySlice_nat (tools.map mcpToolOfTool) 0 50
  rw [Nat.cast_zero, List.drop_zero] at hs
  have hcast : ((0 : Int) + DEFAULT_PAGE_SIZE) = (((0 + 50 : Nat)) : Int) := by
    rw [DEFAULT_PAGE_SIZE]; norm_num
  simp only [toolsListStep, hcast, hs]
  have hlen : ((tools.map mcpToolOfTool).length : Int) = (tools.length : Int) := by
    simp
  by_cases hrem : 50 < tools.length
  · rw [if_pos (by rw [hlen]; push_cast; omega), if_pos hrem, pyStrInt_ofNat]
  · rw [if_neg (by rw [hlen]; push_cast; omega), if_neg hrem]

/-- Driving the cursor protocol from index `i` with enough fuel collects
exactly the remaining tools. -/
theorem drivePages_from (tools : List Tool) :
    ∀ (fuel i : Nat), tools.length ≤ i + fuel →
      ∃ pages, drivePages tools (fuel + 1) (some (pyStrNat i)) = some pages ∧
        pages.flatten = (tools.map mcpToolOfTool).drop i ∧
        ∀ p ∈ pages, p.length ≤ 50 := by
  intro fuel
  induction fuel with
  | zero =>
    intro i hi
    refine ⟨[((tools.map mcpToolOfTool).drop i).take 50], ?_, ?_, ?_⟩
    · simp [drivePages, toolsListStep_at, if_neg (show ¬ i + 50 < tools.length by omega)]
    · simp only [List.flatten, List.append_nil]
      exact List.take_of_length_le (by simp; omega)
    · intro p hp
      simp only [List.mem_singleton] at hp
      subst hp
      simp [List.length_take]
  | succ fuel ih =>
    intro i hi
    by_cases hrem : i + 50 < tools.length
    · obtain ⟨rest, hrest, hflat, hlen⟩ := ih (i + 50) (by omega)
      refine ⟨((tools.map mcpToolOfTool).drop i).take 50 :: rest, ?_, ?_, ?_⟩
      · rw [show drivePages tools (fuel + 1 + 1) (some (pyStrNat i))
              = (match toolsListStep tools (some (pyStrNat i)) with
                 | .error _ => none
                 | .ok (page, none) => some [page]
                 | .ok (page, some c) =>
                   (drivePages tools (fuel + 1) (some c)).map (page :: ·))
            from rfl]
        rw [toolsListStep_at, if_pos hrem]
        simp only [Option.map_eq_map]
        rw [hrest]
        rfl
      · simp only [List.flatten_cons, hflat]
        rw [← List.drop_drop, List.take_append_drop]
      · intro p hp
        rcases List.mem_cons.mp hp with rfl | hmem
        · simp [List.length_take]
        · exact hlen p hmem
    · refine ⟨[((tools.map mcpToolOfTool).drop i).take 50], ?_, ?_, ?_⟩
      · simp [drivePages, toolsListStep_at, if_neg hrem]
      · simp only [List.flatten, List.append_nil]
        exact List.take_of_length_le (by simp; omega)
      · intro p hp
        simp only [List.mem_singleton] at hp
        subst hp
        simp [List.length_take]

/-- C2: starting with no cursor and feeding each `nextCursor` back, the
pages always have at most 50 entries, their concatenation is exactly the
full (MCP-converted) registry contents — no duplicates, no omissions — and
`nextCursor` is present in a step's reply iff tools remain beyond that
page. -/
theorem tools_list_pagination (tools : List Tool) :
    (∃ pages, drivePages tools (tools.length + 1) none = some pages ∧
       pages.flatten = tools.map mcpToolOfTool ∧
       ∀ p ∈ pages, p.length ≤ 50) ∧
    (∀ i : Nat,
      (∃ page s, toolsListStep tools (some (pyStrNat i)) = .ok (page, some s))
        ↔ i + 50 < tools.length) := by
  constructor
  · by_cases hrem : 50 < tools.length
    · obtain ⟨rest, hrest, hflat, hlen⟩ :=
        drivePages_from tools (tools.length - 1) 50 (by omega)
      refine ⟨(tools.map mcpToolOfTool).take 50 :: rest, ?_, ?_, ?_⟩
      · have hfuel : tools.length + 1 = (tools.length - 1) + 1 + 1 := by omega
        rw [hfuel]
        rw [show drivePages tools ((tools.length - 1) + 1 + 1) none
              = (match toolsListStep tools none with
                 | .error _ => none
                 | .ok (page, none) => some [page]
                 | .ok (page, some c) =>
                   (drivePages tools ((tools.length - 1) + 1) (some c)).map (page :: ·))
            from rfl]
        rw [toolsListStep_none, if_pos hrem]
        simp only [Option.map_eq_map]
        rw [hrest]
        rfl
      · simp only [List.flatten_cons, hflat]
        rw [show (tools.map mcpToolOfTool).drop 50
              = ((tools.map mcpToolOfTool).take 50 ++ (tools.map mcpToolOfTool).drop 50).drop 50
            from by rw [List.take_append_drop]]
        rw [List.take_append_drop, List.take_append_drop]
      · intro p hp
        rcases List.mem_cons.mp hp with rfl | hmem
        · simp [List.length_take]
        · exact hlen p hmem
    · refine ⟨[(tools.map mcpToolOfTool).take 50], ?_, ?_, ?_⟩
      · cases htl : tools.length with
        | zero => simp [drivePages, toolsListStep_none, if_neg hrem]
        | succ m => simp [drivePages, toolsListStep_none, if_neg hrem]
      · simp only [List.flatten, List.append_nil]
        exact List.take_of_length_le (by simp; omega)
      · intro p hp
        simp only [List.mem_singleton] at hp
        subst hp
        simp [List.length_take]
  · intro i
    constructor
    · rintro ⟨page, s, hstep⟩
      rw [toolsListStep_at] at hstep
      by_contra hnot
      rw [if_neg hnot] at hstep
      simp at hstep
    · intro hlt
      exact ⟨_, _, by rw [toolsListStep_at, if_pos hlt]⟩

/-- Witness for C2 on a two-tool registry (single page). -/
theorem tools_list_pagination_witness :
    ((drivePages [{ name := "a", description := "d" },
                  { name := "b", description := "d" }] 3 none).getD []).flatten
      = [{ name := "a", description := "d" },
         { name := "b", description := "d" }].map mcpToolOfTool := by
  obtain ⟨⟨pages, hp, hflat, _⟩, _⟩ :=
    tools_list_pagination
      [{ name := "a", description := "d" }, { name := "b", description := "d" }]
  rw [show ([{ name := "a", description := "d" },
             { name := "b", description := "d" }] : List Tool).length + 1 = 3 from rfl] at hp
  rw [hp]
  simpa using hflat

theorem ensureCache_eq (st : ServerSt) :
    ensureCache st = (cacheDoc st, withCache st) := by
  rcases st with ⟨p, c, sv, n, t⟩
  cases c <;> simp [ensureCache, cacheDoc, withCache]

theorem getActiveProviderConfig_eq (st : ServerSt) :
    getActiveProviderConfig st =
      (flatActiveConfig (cacheDoc st), withCache st) := by
  simp only [getActiveProviderConfig, ensureCache_eq]

theorem getParameterConstraints_eq (st : ServerSt) (provider : String) :
    getParameterConstraints st provider =
      (constraintsFor (flatActiveConfig (cacheDoc st)) provider, withCache st) := by
  simp only [getParameterConstraints, getActiveProviderConfig_eq]

/-- C1: `set_provider_parameter` persists before it notifies.  On success
the persisted document holds the validated value and exactly one
`configuration/changed` notification carrying that value is appended; on
every failure (unknown provider, unknown parameter, failed validation,
failed save) the persisted document and the notification log are
unchanged.  In particular, setting temperature to 5.0 on the default OpenAI
state (maximum 2.0) errors out and leaves the persisted temperature at
0.7. -/
theorem set_provider_parameter_persist_then_notify
    (st : ServerSt) (provider param : String) (value : PVal) :
    ((∀ e, (setProviderParameter st provider param value).1 = .error e →
      (setProviderParameter st provider param value).2.persisted = st.persisted ∧
      (setProviderParameter st provider param value).2.notifications = st.notifications) ∧
    (∀ b, (setProviderParameter st provider param value).1 = .ok b →
      ∃ v', (setProviderParameter st provider param value).2.persisted
              = docSetParam (cacheDoc st) provider param v' ∧
            (setProviderParameter st provider param value).2.notifications
              = st.notifications ++ [.configurationChanged provider param v'])) ∧
    (∃ e, (setProviderParameter initialServerSt "openai" "temperature" (.vNum 5)).1
            = .error e) ∧
    pyGetD ((((setProviderParameter initialServerSt "openai" "temperature"
                (.vNum 5)).2.persisted).models.find?
              (fun kv => kv.1 == "openai")).map (·.2) |>.getD [])
        "temperature" .vNone = .vNum (mkRat 7 10) := by
  refine ⟨?_, ⟨"Parameter validation failed: Value 5.0 above maximum 2", rfl⟩, rfl⟩
  unfold setProviderParameter
  simp only [getParameterConstraints_eq, ensureCache_eq]
  split
  · exact ⟨fun e _ => ⟨rfl, rfl⟩, fun b hb => Except.noConfusion hb⟩
  · split
    · exact ⟨fun e _ => ⟨rfl, rfl⟩, fun b hb => Except.noConfusion hb⟩
    · split
      · exact ⟨fun e _ => ⟨rfl, rfl⟩, fun b hb => Except.noConfusion hb⟩
      · simp only [saveConfig]
        split
        · exact ⟨fun e he => Except.noConfusion he, fun b _ => ⟨_, rfl, rfl⟩⟩
        · exact ⟨fun e _ => ⟨rfl, rfl⟩, fun b hb => Except.noConfusion hb⟩

/-- Witness for C1: the out-of-range mutation leaves the persisted document
untouched. -/
theorem set_provider_parameter_persist_then_notify_witness :
    (setProviderParameter initialServerSt "openai" "temperature"
        (.vNum 5)).2.persisted = initialServerSt.persisted ∧
    (setProviderParameter initialServerSt "openai" "temperature"
        (.vNum 5)).2.notifications = initialServerSt.notifications := by
  exact ((set_provider_parameter_persist_then_notify initialServerSt "openai"
    "temperature" (.vNum 5)).1.1
    "Parameter validation failed: Value 5.0 above maximum 2" (by rfl))

theorem withCache_idem (st : ServerSt) : withCache (withCache st) = withCache st := rfl

theorem resetCollectDetails_snd (spec : PVal) (provs : List PVal) :
    ∀ (st : ServerSt),
      (resetCollectDetails spec provs st).2 = st ∨
      (resetCollectDetails spec provs st).2 = withCache st := by
  induction provs with
  | nil => intro st; exact Or.inl rfl
  | cons p rest ih =>
    intro st
    rcases hd : resetCollectDetails spec rest (withCache st) with ⟨ds, st2⟩
    have hstep : (resetCollectDetails spec (p :: rest) st).2 = st2 := by
      simp only [resetCollectDetails, getParameterConstraints_eq, hd]
    rcases ih (withCache st) with h | h <;> rw [hd] at h <;> simp only at h
    · right; rw [hstep, h]
    · right; rw [hstep, h, withCache_idem]

theorem pyMem_vStr_of_mem (s : String) (xs : List String) (h : s ∈ xs) :
    pyMem (.vStr s) (xs.map (.vStr ·)) = true := by
  unfold pyMem
  rw [List.any_eq_true]
  exact ⟨.vStr s, List.mem_map_of_mem _ h, by simp [pyEq]⟩

theorem getAvailableModels_ok (s : String) (h : s ∈ getAvailableProviders) :
    getAvailableModels s =
      .ok (s, (getSupportedModels s).map
        (fun m => ⟨m, isSupportedModel s m, hasSchema s m⟩)) ∧
    getSupportedModels s ≠ [] := by
  fin_cases h <;> exact ⟨rfl, by decide⟩

theorem modelInfo_names_list (s : String) (l : List String) :
    ((l.map (fun m => (⟨m, isSupportedModel s m, hasSchema s m⟩ : ModelInfo))).map
      (fun i => i.name)) = l := by
  induction l with
  | nil => rfl
  | cons m ms ih =>
    simp only [List.map_cons, ih]

theorem modelInfo_names (s : String) :
    (((getSupportedModels s).map
        (fun m => (⟨m, isSupportedModel s m, hasSchema s m⟩ : ModelInfo))).map
      (fun i => i.name)) = getSupportedModels s :=
  modelInfo_names_list s (getSupportedModels s)

/-- The first-phase (`confirm=false`) behaviour of `switch_provider`: the
result is a `confirmation_required` message and the server state's
persisted document, notification log and mutation trace are untouched. -/
theorem c5_switch_lemma (st : ServerSt) (args : List (String × PVal)) (s : String)
    (hprov : pyGet args "provider" = some (.vStr s))
    (havail : s ∈ getAvailableProviders)
    (hconf : pyTruthy (pyGetD args "confirm" (.vBool false)) = false)
    (hchange : (pyEq (pyGetD (flatActiveConfig (cacheDoc st)) "provider" .vNone)
        (.vStr s) && !pyTruthy (pyGetD args "model" .vNone)) = false)
    (hmodel : pyTruthy (pyGetD args "model" .vNone) = false ∨
      ∃ m, pyGetD args "model" .vNone = .vStr m ∧ m ∈ getSupportedModels s) :
    pyGet (switchProviderExecute st args).1 "status"
        = some (.vStr "confirmation_required") ∧
    (switchProviderExecute st args).2.persisted = st.persisted ∧
    (switchProviderExecute st args).2.notifications = st.notifications ∧
    (switchProviderExecute st args).2.trace = st.trace := by
  have hmem : pyMem (.vStr s) (getAvailableProviders.map (.vStr ·)) = true :=
    pyMem_vStr_of_mem s _ havail
  obtain ⟨hmodels, hne⟩ := getAvailableModels_ok s havail
  unfold switchProviderExecute
  rw [hprov]
  simp only [getActiveProviderConfig_eq, hchange, Bool.false_eq_true, if_false,
             hmem, Bool.not_true, PVal.asStr, hmodels, modelInfo_names]
  rcases hsup : getSupportedModels s with _ | ⟨m0, ms⟩
  · exact absurd hsup hne
  · by_cases ht : pyTruthy (pyGetD args "model" .vNone) = true
    · rcases hmodel with hm | ⟨m, hmv, hmmem⟩
      · rw [hm] at ht; cases ht
      · have hmm : pyMem (pyGetD args "model" .vNone)
            ((m0 :: ms).map (.vStr ·)) = true := by
          rw [hmv]
          exact pyMem_vStr_of_mem m _ (hsup ▸ hmmem)
        simp only [ht, hmm, hconf, if_true, Bool.not_true, Bool.not_false,
                   Bool.false_eq_true, if_false]
        exact ⟨rfl, rfl, rfl, rfl⟩
    · simp only [ht, hconf, Bool.not_false, Bool.false_eq_true, if_false, if_true]
      exact ⟨rfl, rfl, rfl, rfl⟩

/-- The first-phase (`confirm=false`) behaviour of `reset_config` when a
change would be required: a `confirmation_required` result with the
persisted document, notification log and mutation trace untouched. -/
theorem c5_reset_lemma (st : ServerSt) (args : List (String × PVal))
    (hconf : pyTruthy (pyGetD args "confirm" (.vBool false)) = false)
    (hchg : resetAnyChanges
        (resetCollectDetails (pyGetD args "parameters" (.vList []))
          (resetProviders st args).1 (withCache st)).1 = true) :
    pyGet (resetConfigExecute st args).1 "status"
        = some (.vStr "confirmation_required") ∧
    (resetConfigExecute st args).2.persisted = st.persisted ∧
    (resetConfigExecute st args).2.notifications = st.notifications ∧
    (resetConfigExecute st args).2.trace = st.trace := by
  rcases hd : resetCollectDetails (pyGetD args "parameters" (.vList []))
      (resetProviders st args).1 (withCache st) with ⟨details, st2⟩
  rw [hd] at hchg
  simp only at hchg
  have hst2 : st2.persisted = st.persisted ∧ st2.notifications = st.notifications ∧
      st2.trace = st.trace := by
    rcases resetCollectDetails_snd (pyGetD args "parameters" (.vList []))
        (resetProviders st args).1 (withCache st) with h | h <;>
      rw [hd] at h <;> simp only at h <;> subst h <;>
      exact ⟨rfl, rfl, rfl⟩
  unfold resetConfigExecute
  simp only [getActiveProviderConfig_eq, hd, hchg, hconf, Bool.not_true,
             Bool.not_false, Bool.false_eq_true, if_false, if_true]
  exact ⟨rfl, hst2.1, hst2.2.1, hst2.2.2⟩

/-- C5: with `confirm` false or absent, and in a state where a change would
be required, `switch_provider` and `reset_config` perform no mutation —
the persisted document, the notification log and the mutating-operation
trace are unchanged — and return `status:"confirmation_required"`. -/
theorem confirm_gate_is_side_effect_free :
    (∀ (st : ServerSt) (args : List (String × PVal)) (s : String),
      pyGet args "provider" = some (.vStr s) →
      s ∈ getAvailableProviders →
      pyTruthy (pyGetD args "confirm" (.vBool false)) = false →
      (pyEq (pyGetD (flatActiveConfig (cacheDoc st)) "provider" .vNone)
          (.vStr s) && !pyTruthy (pyGetD args "model" .vNone)) = false →
      (pyTruthy (pyGetD args "model" .vNone) = false ∨
        ∃ m, pyGetD args "model" .vNone = .vStr m ∧ m ∈ getSupportedModels s) →
      pyGet (switchProviderExecute st args).1 "status"
          = some (.vStr "confirmation_required") ∧
        (switchProviderExecute st args).2.persisted = st.persisted ∧
        (switchProviderExecute st args).2.notifications = st.notifications ∧
        (switchProviderExecute st args).2.trace = st.trace) ∧
    (∀ (st : ServerSt) (args : List (String × PVal)),
      pyTruthy (pyGetD args "confirm" (.vBool false)) = false →
      resetAnyChanges
          (resetCollectDetails (pyGetD args "parameters" (.vList []))
            (resetProviders st args).1 (withCache st)).1 = true →
      pyGet (resetConfigExecute st args).1 "status"
          = some (.vStr "confirmation_required") ∧
        (resetConfigExecute st args).2.persisted = st.persisted ∧
        (resetConfigExecute st args).2.notifications = st.notifications ∧
        (resetConfigExecute st args).2.trace = st.trace) :=
  ⟨fun st args s h1 h2 h3 h4 h5 => c5_switch_lemma st args s h1 h2 h3 h4 h5,
   fun st args h1 h2 => c5_reset_lemma st args h1 h2⟩

/-- Witness for C5: on the default state, an unconfirmed switch to
anthropic and an unconfirmed reset of a modified openai configuration both
ask for confirmation and change nothing. -/
theorem confirm_gate_is_side_effect_free_witness :
    (pyGet (switchProviderExecute initialServerSt
        [("provider", .vStr "anthropic")]).1 "status"
      = some (.vStr "confirmation_required") ∧
     (switchProviderExecute initialServerSt
        [("provider", .vStr "anthropic")]).2.persisted
      = initialServerSt.persisted) ∧
    (pyGet (resetConfigExecute initialServerSt
        [("provider", .vStr "anthropic")]).1 "status"
      = some (.vStr "confirmation_required") ∧
     (resetConfigExecute initialServerSt
        [("provider", .vStr "anthropic")]).2.persisted
      = initialServerSt.persisted) := by
  have hs := confirm_gate_is_side_effect_free.1 initialServerSt
    [("provider", .vStr "anthropic")] "anthropic" rfl (by decide) rfl
    (by decide) (Or.inl rfl)
  have hr := confirm_gate_is_side_effect_free.2 initialServerSt
    [("provider", .vStr "anthropic")] rfl (by decide)
  exact ⟨⟨hs.1, hs.2.1⟩, ⟨hr.1, hr.2.1⟩⟩
